import Mathlib

/-!
# DS3232RTC: register-level protocol of the DS3232/DS3231 real-time-clock driver

A shallow embedding of `DS3232RTC.cpp` / `DS3232RTC.h`.

* `byte` / `uint8_t` values are natural numbers, reduced modulo 256 wherever the C
  code narrows to eight bits; C `int` values are integers.
* The I2C transport (`TwoWire`, an external library) is a mock: a register file with
  an auto-incrementing address pointer, a script of the status codes that the coming
  `endTransmission` calls return, and a log of the bus operations performed.
* The driver object is passed explicitly; every method returns the new object next to
  its C return value.
-/

/-! ## Machine integers -/

/-- Conversion of a C `int` to `uint8_t`: reduction modulo 256. -/
def toByte (x : Int) : Nat := (x % 256).toNat

/-- The macro `_BV(bit)`, that is `1 << (bit)`. -/
def _BV (bit : Nat) : Nat := 1 <<< bit

/-- The C expression `x & ~m` narrowed to `uint8_t`, for `x` and `m` of eight bits.  Both
operands are promoted to `int`, so `~m` is `-1 - m`; in two's complement the low eight
bits of the conjunction are the bits of `x` that are not bits of `m`. -/
def andNot8 (x m : Nat) : Nat := (x % 256) &&& (255 ^^^ (m % 256))

/-! ## Constants of `DS3232RTC.cpp` -/

abbrev RTC_ADDR : Nat := 0x68

abbrev RTC_SECONDS : Nat := 0x00
abbrev RTC_MINUTES : Nat := 0x01
abbrev RTC_DAY : Nat := 0x03
abbrev RTC_DATE : Nat := 0x04
abbrev RTC_MONTH : Nat := 0x05
abbrev RTC_YEAR : Nat := 0x06
abbrev ALM1_SECONDS : Nat := 0x07
abbrev ALM1_MINUTES : Nat := 0x08
abbrev ALM1_HOURS : Nat := 0x09
abbrev ALM1_DAYDATE : Nat := 0x0A
abbrev ALM2_MINUTES : Nat := 0x0B
abbrev ALM2_HOURS : Nat := 0x0C
abbrev ALM2_DAYDATE : Nat := 0x0D
abbrev RTC_CONTROL : Nat := 0x0E
abbrev RTC_STATUS : Nat := 0x0F
abbrev RTC_AGING : Nat := 0x10
abbrev RTC_TEMP_MSB : Nat := 0x11
abbrev RTC_TEMP_LSB : Nat := 0x12

abbrev A1M1 : Nat := 7
abbrev A1M2 : Nat := 7
abbrev A1M3 : Nat := 7
abbrev A1M4 : Nat := 7
abbrev A2M2 : Nat := 7
abbrev A2M3 : Nat := 7
abbrev A2M4 : Nat := 7

abbrev EOSC : Nat := 7
abbrev BBSQW : Nat := 6
abbrev CONV : Nat := 5
abbrev RS2 : Nat := 4
abbrev RS1 : Nat := 3
abbrev INTCN : Nat := 2
abbrev A2IE : Nat := 1
abbrev A1IE : Nat := 0

abbrev OSF : Nat := 7
abbrev BB32KHZ : Nat := 6
abbrev CRATE1 : Nat := 5
abbrev CRATE0 : Nat := 4
abbrev EN32KHZ : Nat := 3
abbrev BSY : Nat := 2
abbrev A2F : Nat := 1
abbrev A1F : Nat := 0

abbrev DS1307_CH : Nat := 7
abbrev HR1224 : Nat := 6
abbrev CENTURY : Nat := 7
abbrev DYDT : Nat := 6

/-! ## Enumerations of `DS3232RTC.h` -/

/-- Alarm masks. -/
inductive ALARM_TYPES_t where
  | ALM1_EVERY_SECOND
  | ALM1_MATCH_SECONDS
  | ALM1_MATCH_MINUTES
  | ALM1_MATCH_HOURS
  | ALM1_MATCH_DATE
  | ALM1_MATCH_DAY
  | ALM2_EVERY_MINUTE
  | ALM2_MATCH_MINUTES
  | ALM2_MATCH_HOURS
  | ALM2_MATCH_DATE
  | ALM2_MATCH_DAY
  deriving DecidableEq

/-- The enumerator values of `ALARM_TYPES_t`. -/
def ALARM_TYPES_t.val : ALARM_TYPES_t → Nat
  | .ALM1_EVERY_SECOND => 0x0F
  | .ALM1_MATCH_SECONDS => 0x0E
  | .ALM1_MATCH_MINUTES => 0x0C
  | .ALM1_MATCH_HOURS => 0x08
  | .ALM1_MATCH_DATE => 0x00
  | .ALM1_MATCH_DAY => 0x10
  | .ALM2_EVERY_MINUTE => 0x8E
  | .ALM2_MATCH_MINUTES => 0x8C
  | .ALM2_MATCH_HOURS => 0x88
  | .ALM2_MATCH_DATE => 0x80
  | .ALM2_MATCH_DAY => 0x90

/-- Square-wave output frequency. -/
inductive SQWAVE_FREQS_t where
  | SQWAVE_1_HZ
  | SQWAVE_1024_HZ
  | SQWAVE_4096_HZ
  | SQWAVE_8192_HZ
  | SQWAVE_NONE
  deriving DecidableEq

/-- The enumerator values of `SQWAVE_FREQS_t` (implicit, counting from zero). -/
def SQWAVE_FREQS_t.val : SQWAVE_FREQS_t → Nat
  | .SQWAVE_1_HZ => 0
  | .SQWAVE_1024_HZ => 1
  | .SQWAVE_4096_HZ => 2
  | .SQWAVE_8192_HZ => 3
  | .SQWAVE_NONE => 4

/-- The fields of `struct tm` (`<time.h>`), each a C integer. -/
structure tm where
  tm_sec : Int
  tm_min : Int
  tm_hour : Int
  tm_mday : Int
  tm_wday : Int
  tm_mon : Int
  tm_year : Int
  tm_yday : Int
  tm_isdst : Int
  deriving DecidableEq

/-! ## The bus transport -/

/-- One completed bus operation. -/
inductive BusEvent where
  /-- A write transaction `beginTransmission(address) ... endTransmission()`, with the
  bytes queued in between and the status it returned. -/
  | transmission (address : Nat) (bytes : List Nat) (status : Nat)
  /-- A read request `requestFrom(address, quantity)`. -/
  | request (address : Nat) (quantity : Nat)
  deriving DecidableEq

/-- Modelled from the spec: the bus transport (`TwoWire`, the Arduino Wire library, which
is not part of the repository) together with the single device behind it.  The device
is a register file addressed 0x00-0xFF with an address pointer that advances (wrapping
at 0xFF) after every byte read or written.  `script` lists the status codes that the
coming `endTransmission` calls return, in order; once it is exhausted every transaction
succeeds with status 0.  A transaction that returns a nonzero status delivers nothing
to the device. -/
structure TwoWire where
  /-- Device register contents. -/
  regs : Nat → Nat
  /-- Device address pointer. -/
  ptr : Nat
  /-- Target of the pending write transaction. -/
  txAddress : Nat
  /-- Bytes queued since `beginTransmission`. -/
  txBuffer : List Nat
  /-- Bytes received by the last `requestFrom` and not yet consumed. -/
  rxBuffer : List Nat
  /-- Status codes of the coming `endTransmission` calls. -/
  script : List Nat
  /-- Bus operations completed so far, oldest first. -/
  log : List BusEvent

namespace TwoWire

/-- Device side of a successful write: store the payload at consecutive addresses. -/
def storeBytes (regs : Nat → Nat) (ptr : Nat) : List Nat → (Nat → Nat) × Nat
  | [] => (regs, ptr)
  | v :: vs => storeBytes (fun a => if a = ptr then v else regs a) ((ptr + 1) % 256) vs

/-- Device side of a read: the register contents at consecutive addresses. -/
def fetchBytes (regs : Nat → Nat) (ptr : Nat) : Nat → List Nat
  | 0 => []
  | n + 1 => regs ptr :: fetchBytes regs ((ptr + 1) % 256) n

/-- Modelled from the spec: `beginTransaction(deviceAddress)`. -/
def beginTransmission (w : TwoWire) (address : Nat) : TwoWire :=
  { w with txAddress := address % 256, txBuffer := [] }

/-- Modelled from the spec: `writeByte(b)`, appended to the pending transaction. -/
def write (w : TwoWire) (data : Nat) : TwoWire :=
  { w with txBuffer := w.txBuffer ++ [data % 256] }

/-- Modelled from the spec: `endTransaction() -> status`.  On success the first queued
byte sets the device address pointer and the remaining bytes are stored from there. -/
def endTransmission (w : TwoWire) : Nat × TwoWire :=
  let status := w.script.headD 0
  let w1 : TwoWire :=
    { w with script := w.script.tail, txBuffer := [],
             log := w.log ++ [BusEvent.transmission w.txAddress w.txBuffer status] }
  if status ≠ 0 then (status, w1)
  else
    match w.txBuffer with
    | [] => (0, w1)
    | a :: data =>
      (0, { w1 with regs := (storeBytes w.regs a data).1, ptr := (storeBytes w.regs a data).2 })

/-- Modelled from the spec: `requestBytes(deviceAddress, count)`; the device delivers
`count` bytes starting at its address pointer. -/
def requestFrom (w : TwoWire) (address quantity : Nat) : TwoWire :=
  { w with rxBuffer := fetchBytes w.regs w.ptr quantity,
           ptr := (w.ptr + quantity) % 256,
           log := w.log ++ [BusEvent.request address quantity] }

/-- Modelled from the spec: `readByte() -> next buffered byte`; as in the Wire library
the result is an `int`, which is -1 when no byte is buffered. -/
def read (w : TwoWire) : Int × TwoWire :=
  match w.rxBuffer with
  | [] => (-1, w)
  | x :: xs => ((x : Int), { w with rxBuffer := xs })

end TwoWire

/-! ## The driver -/

/-- The driver object: the bus it refers to and the static `errCode`.  `uninit` is the
indeterminate value that the uninitialised local `byte b` of `readRTC(byte addr)` holds
before the read; it is a parameter of the model. -/
structure DS3232RTC where
  busI2C : TwoWire
  errCode : Nat
  uninit : Nat

namespace DS3232RTC

/-- Decimal-to-BCD conversion: `return n + 6 * (n / 10);` on `uint8_t`. -/
def dec2bcd (n : Nat) : Nat := ((n % 256) + 6 * ((n % 256) / 10)) % 256

/-- BCD-to-Decimal conversion: `return n - 6 * (n >> 4);` on `uint8_t`, computed in
`int` and narrowed to `uint8_t`. -/
def bcd2dec (n : Nat) : Nat :=
  toByte (((n % 256 : Nat) : Int) - 6 * (((n % 256) >>> 4 : Nat) : Int))

/-- Verifies the I2C connection; returns the I2C status. -/
def checkCon (self : DS3232RTC) : Nat × DS3232RTC :=
  let w := self.busI2C.beginTransmission RTC_ADDR
  let r := w.endTransmission
  (r.1, { self with busI2C := r.2 })

/-- Reads the current time from the RTC into a `tm` structure; returns the I2C status. -/
def read (self : DS3232RTC) (t : tm) : Nat × tm × DS3232RTC :=
  let w := self.busI2C.beginTransmission RTC_ADDR
  let w := w.write RTC_SECONDS
  let r := w.endTransmission
  if r.1 ≠ 0 then (r.1, t, { self with busI2C := r.2, errCode := r.1 })
  else
    let w := r.2.requestFrom RTC_ADDR 7
    let x := w.read
    let t := { t with tm_sec := (bcd2dec (andNot8 (toByte x.1) (_BV DS1307_CH)) : Nat) }
    let x := x.2.read
    let t := { t with tm_min := (bcd2dec (toByte x.1) : Nat) }
    let x := x.2.read
    let t := { t with tm_hour := (bcd2dec (andNot8 (toByte x.1) (_BV HR1224)) : Nat) }
    let x := x.2.read
    let t := { t with tm_wday := x.1 }
    let x := x.2.read
    let t := { t with tm_mday := (bcd2dec (toByte x.1) : Nat) }
    let x := x.2.read
    let t := { t with tm_mon := (bcd2dec (andNot8 (toByte x.1) (_BV CENTURY)) : Nat) }
    let x := x.2.read
    let t := { t with tm_year := (bcd2dec (toByte x.1) : Nat) }
    let t := { t with tm_isdst := 0 }
    (0, t, { self with busI2C := x.2 })

/-- The loop `for (byte i=0; i<nBytes; i++) busI2C.write(values[i]);`, from index `i`
with `n` iterations left. -/
def writeLoop (w : TwoWire) (values : Nat → Nat) (i : Nat) : Nat → TwoWire
  | 0 => w
  | n + 1 => writeLoop (w.write (values i)) values (i + 1) n

/-- Write multiple bytes to RTC RAM; returns the I2C status.  `values` is the memory
behind the pointer argument, indexed from zero. -/
def writeRTC (self : DS3232RTC) (addr : Nat) (values : Nat → Nat) (nBytes : Nat) :
    Nat × DS3232RTC :=
  let w := self.busI2C.beginTransmission RTC_ADDR
  let w := w.write addr
  let w := writeLoop w values 0 (nBytes % 256)
  let r := w.endTransmission
  (r.1, { self with busI2C := r.2 })

/-- Write a single byte to RTC RAM; returns the I2C status. -/
def writeRTC1 (self : DS3232RTC) (addr value : Nat) : Nat × DS3232RTC :=
  writeRTC self addr (fun _ => value % 256) 1

/-- The loop `for (byte i=0; i<nBytes; i++) values[i] = busI2C.read();`, from index
`i` with `n` iterations left. -/
def readLoop (w : TwoWire) (values : Nat → Nat) (i : Nat) : Nat → (Nat → Nat) × TwoWire
  | 0 => (values, w)
  | n + 1 =>
    readLoop w.read.2 (fun j => if j = i then toByte w.read.1 else values j) (i + 1) n

/-- Read multiple bytes from RTC RAM; returns the I2C status and the memory behind the
pointer argument. -/
def readRTC (self : DS3232RTC) (addr : Nat) (values : Nat → Nat) (nBytes : Nat) :
    Nat × (Nat → Nat) × DS3232RTC :=
  let w := self.busI2C.beginTransmission RTC_ADDR
  let w := w.write addr
  let r := w.endTransmission
  if r.1 ≠ 0 then (r.1, values, { self with busI2C := r.2 })
  else
    let w := r.2.requestFrom RTC_ADDR (nBytes % 256)
    let l := readLoop w values 0 (nBytes % 256)
    (0, l.1, { self with busI2C := l.2 })

/-- Read a single byte from RTC RAM: `byte b; readRTC(addr, &b, 1); return b;`. -/
def readRTC1 (self : DS3232RTC) (addr : Nat) : Nat × DS3232RTC :=
  let r := readRTC self addr (fun _ => self.uninit % 256) 1
  (r.2.1 0, r.2.2)

/-- Set the RTC time from a `tm` structure and clear the oscillator stop flag; returns
the I2C status of the time write. -/
def write (self : DS3232RTC) (t : tm) : Nat × DS3232RTC :=
  let w := self.busI2C.beginTransmission RTC_ADDR
  let w := w.write RTC_SECONDS
  let w := w.write (dec2bcd (toByte t.tm_sec))
  let w := w.write (dec2bcd (toByte t.tm_min))
  let w := w.write (dec2bcd (toByte t.tm_hour))
  let w := w.write (toByte t.tm_wday)
  let w := w.write (dec2bcd (toByte t.tm_mday))
  let w := w.write (dec2bcd (toByte t.tm_mon))
  let w := w.write (dec2bcd (toByte t.tm_year))
  let r := w.endTransmission
  let ret := r.1
  let s := readRTC1 { self with busI2C := r.2 } RTC_STATUS
  let self := (writeRTC1 s.2 RTC_STATUS (andNot8 s.1 (_BV OSF))).2
  (ret, self)

/-- Set an alarm time (alarm registers only).  The alarm block is chosen by bit 7 of
`alarmType`; the bytes are written one register per transaction. -/
def setAlarm (self : DS3232RTC) (alarmType : ALARM_TYPES_t)
    (seconds minutes hours daydate : Nat) : DS3232RTC :=
  let seconds := dec2bcd seconds
  let minutes := dec2bcd minutes
  let hours := dec2bcd hours
  let daydate := dec2bcd daydate
  let seconds := if alarmType.val &&& 0x01 ≠ 0 then (seconds ||| _BV A1M1) % 256 else seconds
  let minutes := if alarmType.val &&& 0x02 ≠ 0 then (minutes ||| _BV A1M2) % 256 else minutes
  let hours := if alarmType.val &&& 0x04 ≠ 0 then (hours ||| _BV A1M3) % 256 else hours
  let daydate := if alarmType.val &&& 0x10 ≠ 0 then (daydate ||| _BV DYDT) % 256 else daydate
  let daydate := if alarmType.val &&& 0x08 ≠ 0 then (daydate ||| _BV A1M4) % 256 else daydate
  let p : Nat × DS3232RTC :=
    if alarmType.val &&& 0x80 = 0 then
      ((ALM1_SECONDS + 1) % 256, (writeRTC1 self ALM1_SECONDS seconds).2)
    else
      (ALM2_MINUTES, self)
  let addr := p.1
  let self := (writeRTC1 p.2 addr minutes).2
  let addr := (addr + 1) % 256
  let self := (writeRTC1 self addr hours).2
  let addr := (addr + 1) % 256
  (writeRTC1 self addr daydate).2

/-- The overload of `setAlarm` without a seconds argument: seconds is zero. -/
def setAlarm3 (self : DS3232RTC) (alarmType : ALARM_TYPES_t) (minutes hours daydate : Nat) :
    DS3232RTC :=
  setAlarm self alarmType 0 minutes hours daydate

/-- Enable or disable an alarm interrupt.  The shift count `alarmNumber - 1` is
computed in `int`; for `alarmNumber = 0` the C expression is undefined, and the model is
meant for `alarmNumber ≥ 1` only. -/
def alarmInterrupt (self : DS3232RTC) (alarmNumber : Nat) (interruptEnabled : Bool) :
    DS3232RTC :=
  let r := readRTC1 self RTC_CONTROL
  let controlReg := r.1
  let mask := (_BV A1IE <<< (alarmNumber % 256 - 1)) % 256
  let controlReg :=
    if interruptEnabled then (controlReg ||| mask) % 256 else andNot8 controlReg mask
  (writeRTC1 r.2 RTC_CONTROL controlReg).2

/-- Returns whether the given alarm has been triggered, and resets the alarm flag bit.
The shift count is as in `alarmInterrupt`. -/
def alarm (self : DS3232RTC) (alarmNumber : Nat) : Bool × DS3232RTC :=
  let r := readRTC1 self RTC_STATUS
  let statusReg := r.1
  let mask := (_BV A1F <<< (alarmNumber % 256 - 1)) % 256
  if statusReg &&& mask ≠ 0 then
    let statusReg := andNot8 statusReg mask
    (true, (writeRTC1 r.2 RTC_STATUS statusReg).2)
  else
    (false, r.2)

/-- Enable or disable the square wave output. -/
def squareWave (self : DS3232RTC) (freq : SQWAVE_FREQS_t) : DS3232RTC :=
  let r := readRTC1 self RTC_CONTROL
  let controlReg := r.1
  let controlReg :=
    if freq.val ≥ SQWAVE_FREQS_t.SQWAVE_NONE.val then (controlReg ||| _BV INTCN) % 256
    else ((controlReg &&& 0xE3) ||| (freq.val <<< RS1)) % 256
  (writeRTC1 r.2 RTC_CONTROL controlReg).2

/-- Returns the oscillator stop flag, optionally clearing it. -/
def oscStopped (self : DS3232RTC) (clearOSF : Bool) : Bool × DS3232RTC :=
  let r := readRTC1 self RTC_STATUS
  let s := r.1
  let ret : Bool := decide (s &&& _BV OSF ≠ 0)
  if ret && clearOSF then
    (ret, (writeRTC1 r.2 RTC_STATUS (andNot8 s (_BV OSF))).2)
  else
    (ret, r.2)

/-- The `int` member of `union int16_byte { int i; byte b[2]; }` for a 16-bit
little-endian `int`: the two's-complement value with low byte `b0` and high byte `b1`. -/
def int16_byte (b0 b1 : Nat) : Int :=
  if b0 % 256 + 256 * (b1 % 256) < 32768 then ((b0 % 256 + 256 * (b1 % 256) : Nat) : Int)
  else ((b0 % 256 + 256 * (b1 % 256) : Nat) : Int) - 65536

/-- Returns the temperature in Celsius times four: `rtcTemp.i / 64`, a C division
(rounding toward zero). -/
def temperature (self : DS3232RTC) : Int × DS3232RTC :=
  let r0 := readRTC1 self RTC_TEMP_LSB
  let r1 := readRTC1 r0.2 RTC_TEMP_MSB
  (Int.tdiv (int16_byte r0.1 r1.1) 64, r1.2)

/-- Read the current time as a `time_t`; zero if an I2C error occurred.  `mk_gmtime` is
the library conversion and `t0` the indeterminate initial content of the local `tm`. -/
def get (self : DS3232RTC) (mk_gmtime : tm → Int) (t0 : tm) : Int × DS3232RTC :=
  let r := read self t0
  if r.1 ≠ 0 then (0, r.2.2) else (mk_gmtime r.2.1, r.2.2)

/-- Set the RTC to the given `time_t` value; `gmtime_r` is the library conversion. -/
def set (self : DS3232RTC) (gmtime_r : Int → tm) (t : Int) : Nat × DS3232RTC :=
  write self (gmtime_r t)

/-- The variants of `ALARM_TYPES_t` named `ALM2_*`. -/
def isAlarm2 : ALARM_TYPES_t → Bool
  | .ALM2_EVERY_MINUTE => true
  | .ALM2_MATCH_MINUTES => true
  | .ALM2_MATCH_HOURS => true
  | .ALM2_MATCH_DATE => true
  | .ALM2_MATCH_DAY => true
  | _ => false

/-! ## Documented alarm masks -/

/-- The documented alarm mask table, taken from the enumeration's documentation and not
from `setAlarm`: for each variant the mask bits (bit 7) of the seconds, minutes, hours and
day/date bytes, and the DY/DT bit (bit 6 of the day/date byte).  Alarm 2 has no seconds
byte; its `m1` entry is not used. -/
structure AlarmMask where
  m1 : Bool
  m2 : Bool
  m3 : Bool
  m4 : Bool
  dydt : Bool
  deriving DecidableEq

/-- The documented mask pattern of each alarm type. -/
def documentedMask : ALARM_TYPES_t → AlarmMask
  | .ALM1_EVERY_SECOND => { m1 := true, m2 := true, m3 := true, m4 := true, dydt := false }
  | .ALM1_MATCH_SECONDS => { m1 := false, m2 := true, m3 := true, m4 := true, dydt := false }
  | .ALM1_MATCH_MINUTES => { m1 := false, m2 := false, m3 := true, m4 := true, dydt := false }
  | .ALM1_MATCH_HOURS => { m1 := false, m2 := false, m3 := false, m4 := true, dydt := false }
  | .ALM1_MATCH_DATE => { m1 := false, m2 := false, m3 := false, m4 := false, dydt := false }
  | .ALM1_MATCH_DAY => { m1 := false, m2 := false, m3 := false, m4 := false, dydt := true }
  | .ALM2_EVERY_MINUTE => { m1 := false, m2 := true, m3 := true, m4 := true, dydt := false }
  | .ALM2_MATCH_MINUTES => { m1 := false, m2 := false, m3 := true, m4 := true, dydt := false }
  | .ALM2_MATCH_HOURS => { m1 := false, m2 := false, m3 := false, m4 := true, dydt := false }
  | .ALM2_MATCH_DATE => { m1 := false, m2 := false, m3 := false, m4 := false, dydt := false }
  | .ALM2_MATCH_DAY => { m1 := false, m2 := false, m3 := false, m4 := false, dydt := true }

/-! ## Sample inputs -/

/-- A device with some register contents, behind a bus that always succeeds. -/
def sampleWire : TwoWire :=
  { regs := fun a => if a = 0x0F then 0x8B else if a = 0x0E then 0x5D else 0,
    ptr := 0, txAddress := 0, txBuffer := [], rxBuffer := [], script := [], log := [] }

/-- A driver object on `sampleWire`. -/
def sampleRTC : DS3232RTC := { busI2C := sampleWire, errCode := 0, uninit := 0 }

/-- The time 23:58:59 on weekday 7, day 31 of month 12, year 99. -/
def sampleTime : tm :=
  { tm_sec := 59, tm_min := 58, tm_hour := 23, tm_mday := 31, tm_wday := 7, tm_mon := 12,
    tm_year := 99, tm_yday := 0, tm_isdst := 0 }

/-- A record with every field zero. -/
def zeroTime : tm :=
  { tm_sec := 0, tm_min := 0, tm_hour := 0, tm_mday := 0, tm_wday := 0, tm_mon := 0,
    tm_year := 0, tm_yday := 0, tm_isdst := 0 }

/-! ## Definitions taken from the documentation -/

/-- The number of bus transactions in a sequence of bus operations, where an address
write that is immediately followed by a read request counts as one transaction together
with that request. -/
def countTransactions : List BusEvent → Nat
  | [] => 0
  | BusEvent.transmission _ _ _ :: BusEvent.request _ _ :: rest => 1 + countTransactions rest
  | _ :: rest => 1 + countTransactions rest

/-- The bus operations that took the driver from state `before` to state `after`. -/
def newEvents (before after : DS3232RTC) : List BusEvent :=
  after.busI2C.log.drop before.busI2C.log.length

/-- A driver object on a device with the given register contents, behind a bus whose
coming transactions return the given status codes. -/
def mkRTC (regs : Nat → Nat) (script : List Nat) : DS3232RTC :=
  { busI2C :=
      { regs := regs, ptr := 0, txAddress := 0, txBuffer := [], rxBuffer := [],
        script := script, log := [] },
    errCode := 0, uninit := 0 }

end DS3232RTC

/-! ## Basic facts about bytes -/

theorem toByte_natCast (n : Nat) : toByte (n : Int) = n % 256 := by
  unfold toByte; omega

theorem toByte_lt (x : Int) : toByte x < 256 := by
  unfold toByte; omega

theorem toByte_mod (x : Int) : toByte x % 256 = toByte x :=
  Nat.mod_eq_of_lt (toByte_lt x)

theorem andNot8_lt (x m : Nat) : andNot8 x m < 256 := by
  unfold andNot8
  exact lt_of_le_of_lt Nat.and_le_left (Nat.mod_lt _ (by decide))

theorem andNot8_mod (x m : Nat) : andNot8 x m % 256 = andNot8 x m :=
  Nat.mod_eq_of_lt (andNot8_lt x m)

theorem andNot8_mod_left (x m : Nat) : andNot8 (x % 256) m = andNot8 x m := by
  simp [andNot8]

theorem byte_testBit_ge (x i : Nat) (hx : x < 256) (hi : 8 ≤ i) : x.testBit i = false := by
  apply Nat.testBit_lt_two_pow
  calc x < 2 ^ 8 := hx
    _ ≤ 2 ^ i := Nat.pow_le_pow_right (by decide) hi

theorem mod256_testBit (x i : Nat) : (x % 256).testBit i = (decide (i < 8) && x.testBit i) := by
  have h : (256 : Nat) = 2 ^ 8 := by norm_num
  rw [h, Nat.testBit_mod_two_pow]

theorem andNot8_testBit (x m i : Nat) :
    (andNot8 x m).testBit i = (decide (i < 8) && x.testBit i && !m.testBit i) := by
  have h255 : (255 : Nat) = 2 ^ 8 - 1 := by norm_num
  unfold andNot8
  rw [Nat.testBit_and, Nat.testBit_xor, mod256_testBit, mod256_testBit, h255,
    Nat.testBit_two_pow_sub_one]
  by_cases hi : i < 8 <;> simp [hi]

theorem _BV_testBit (k i : Nat) : (_BV k).testBit i = decide (k = i) := by
  unfold _BV
  rw [Nat.one_shiftLeft, Nat.testBit_two_pow]

theorem orMod_testBit (x m i : Nat) :
    ((x ||| m) % 256).testBit i = (decide (i < 8) && (x.testBit i || m.testBit i)) := by
  rw [mod256_testBit, Nat.testBit_or]

namespace DS3232RTC

theorem dec2bcd_mod (n : Nat) : dec2bcd n % 256 = dec2bcd n := by
  simp [dec2bcd]

theorem bcd2dec_lt (n : Nat) : bcd2dec n < 256 := toByte_lt _

theorem readRTC1_ok (self : DS3232RTC) (addr : Nat) (h : self.busI2C.script = []) :
    readRTC1 self addr =
      (self.busI2C.regs (addr % 256) % 256,
       { self with busI2C :=
          { self.busI2C with
              ptr := (addr % 256 + 1) % 256, txAddress := 0x68, txBuffer := [],
              rxBuffer := [],
              log := self.busI2C.log ++
                [BusEvent.transmission 0x68 [addr % 256] 0, BusEvent.request 0x68 1] } }) := by
  simp [readRTC1, readRTC, readLoop, TwoWire.beginTransmission, TwoWire.write,
    TwoWire.endTransmission, TwoWire.requestFrom, TwoWire.read, TwoWire.fetchBytes,
    TwoWire.storeBytes, h, toByte_natCast, RTC_ADDR]

theorem writeRTC1_ok (self : DS3232RTC) (addr value : Nat) (h : self.busI2C.script = []) :
    writeRTC1 self addr value =
      (0,
       { self with busI2C :=
          { self.busI2C with
              regs := fun a => if a = addr % 256 then value % 256 else self.busI2C.regs a,
              ptr := (addr % 256 + 1) % 256, txAddress := 0x68, txBuffer := [],
              log := self.busI2C.log ++
                [BusEvent.transmission 0x68 [addr % 256, value % 256] 0] } }) := by
  simp [writeRTC1, writeRTC, writeLoop, TwoWire.beginTransmission, TwoWire.write,
    TwoWire.endTransmission, TwoWire.storeBytes, h, RTC_ADDR]

theorem bcd2dec_mod_arg (n : Nat) : bcd2dec (n % 256) = bcd2dec n := by
  simp [bcd2dec]

/-- The effect of `write` on a succeeding bus: one transaction storing the seven clock
registers, then the read-modify-write of the status register. -/
theorem write_ok (self : DS3232RTC) (t : tm) (h : self.busI2C.script = []) :
    self.write t =
      (0,
       { self with busI2C :=
          { regs := fun a =>
              if a = 15 then andNot8 (self.busI2C.regs 15) 128
              else if a = 6 then dec2bcd (toByte t.tm_year)
              else if a = 5 then dec2bcd (toByte t.tm_mon)
              else if a = 4 then dec2bcd (toByte t.tm_mday)
              else if a = 3 then toByte t.tm_wday
              else if a = 2 then dec2bcd (toByte t.tm_hour)
              else if a = 1 then dec2bcd (toByte t.tm_min)
              else if a = 0 then dec2bcd (toByte t.tm_sec)
              else self.busI2C.regs a,
            ptr := 16, txAddress := 0x68, txBuffer := [], rxBuffer := [], script := [],
            log := self.busI2C.log ++
              [BusEvent.transmission 0x68
                 [0, dec2bcd (toByte t.tm_sec), dec2bcd (toByte t.tm_min),
                  dec2bcd (toByte t.tm_hour), toByte t.tm_wday, dec2bcd (toByte t.tm_mday),
                  dec2bcd (toByte t.tm_mon), dec2bcd (toByte t.tm_year)] 0,
               BusEvent.transmission 0x68 [15] 0,
               BusEvent.request 0x68 1,
               BusEvent.transmission 0x68 [15, andNot8 (self.busI2C.regs 15) 128] 0] } }) := by
  simp [write, readRTC1_ok, writeRTC1_ok, TwoWire.beginTransmission, TwoWire.write,
    TwoWire.endTransmission, TwoWire.storeBytes, h, RTC_ADDR, RTC_STATUS, RTC_SECONDS,
    toByte_mod, andNot8_mod, andNot8_mod_left, dec2bcd_mod, _BV, OSF]

/-- The effect of `read` on a succeeding bus: status 0 and the seven clock registers
decoded into the record. -/
theorem read_ok (self : DS3232RTC) (t0 : tm) (h : self.busI2C.script = []) :
    (self.read t0).1 = 0 ∧
    (self.read t0).2.1 =
      { t0 with
        tm_sec := (bcd2dec (andNot8 (self.busI2C.regs 0) 128) : Nat)
        tm_min := (bcd2dec (self.busI2C.regs 1) : Nat)
        tm_hour := (bcd2dec (andNot8 (self.busI2C.regs 2) 64) : Nat)
        tm_wday := (self.busI2C.regs 3 : Nat)
        tm_mday := (bcd2dec (self.busI2C.regs 4) : Nat)
        tm_mon := (bcd2dec (andNot8 (self.busI2C.regs 5) 128) : Nat)
        tm_year := (bcd2dec (self.busI2C.regs 6) : Nat)
        tm_isdst := 0 } := by
  simp [read, TwoWire.beginTransmission, TwoWire.write,
    TwoWire.endTransmission, TwoWire.requestFrom, TwoWire.read, TwoWire.fetchBytes,
    TwoWire.storeBytes, h, toByte_natCast, RTC_ADDR, RTC_SECONDS, _BV, DS1307_CH, HR1224, CENTURY,
    andNot8_mod_left, bcd2dec_mod_arg]

theorem toByte_of_range (x : Int) (n : Nat) (h0 : 0 ≤ x) (h1 : x ≤ n) (hn : n < 256) :
    ∃ k : Nat, k ≤ n ∧ x = (k : Int) ∧ toByte x = k := by
  refine ⟨x.toNat, by omega, by omega, ?_⟩
  unfold toByte; omega

theorem bcd_clear7 : ∀ n, n ≤ 59 → bcd2dec (andNot8 (dec2bcd n) 128) = n := by decide

theorem bcd_clear6 : ∀ n, n ≤ 23 → bcd2dec (andNot8 (dec2bcd n) 64) = n := by decide

theorem dec2bcd_digits : ∀ n, n ≤ 99 →
    dec2bcd n = 16 * (n / 10) + n % 10 ∧ dec2bcd n >>> 4 = n / 10 ∧
      dec2bcd n &&& 0x0F = n % 10 := by decide

theorem bcd_plain : ∀ n, n ≤ 99 → bcd2dec (dec2bcd n) = n := by decide

/-! ## BCD codec -/

/-- C1: BCD round trip.  For every n with 0 <= n <= 99, converting n to packed BCD with
`dec2bcd` and back with `bcd2dec` (both in 8-bit unsigned arithmetic) returns n. -/
theorem bcd_round_trip (n : Nat) (h : n ≤ 99) : bcd2dec (dec2bcd n) = n :=
  bcd_plain n h

theorem bcd_round_trip_witness : (99 : Nat) ≤ 99 ∧ bcd2dec (dec2bcd 99) = 99 :=
  ⟨by decide, bcd_round_trip 99 (by decide)⟩

/-- C2: for every n with 0 <= n <= 99, `dec2bcd n` is the packed-BCD byte of n: it equals
16 * (n / 10) + n % 10, its high nibble is the tens digit n / 10 and its low nibble is the
ones digit n % 10. -/
theorem dec2bcd_packed (n : Nat) (h : n ≤ 99) :
    dec2bcd n = 16 * (n / 10) + n % 10 ∧
    dec2bcd n >>> 4 = n / 10 ∧
    dec2bcd n &&& 0x0F = n % 10 :=
  dec2bcd_digits n h

theorem dec2bcd_packed_witness :
    (47 : Nat) ≤ 99 ∧ dec2bcd 47 = 16 * (47 / 10) + 47 % 10 ∧ dec2bcd 47 >>> 4 = 47 / 10 ∧
      dec2bcd 47 &&& 0x0F = 47 % 10 :=
  ⟨by decide, dec2bcd_packed 47 (by decide)⟩

/-! ## Time access -/

/-- C3: time round trip.  On a device whose bus always succeeds and whose registers
auto-increment, for every time t with seconds 0-59, minutes 0-59, hours 0-23, weekday 1-7,
day of month 1-31, month 1-12 and year 0-99, `write t` followed by `read` yields status 0
and a record equal to t in seconds, minutes, hours, day of month, month and year, with the
weekday equal to the raw value written. -/
theorem time_round_trip (self : DS3232RTC) (t t0 : tm)
    (hbus : self.busI2C.script = [])
    (hsec : 0 ≤ t.tm_sec ∧ t.tm_sec ≤ 59) (hmin : 0 ≤ t.tm_min ∧ t.tm_min ≤ 59)
    (hhour : 0 ≤ t.tm_hour ∧ t.tm_hour ≤ 23) (hwday : 1 ≤ t.tm_wday ∧ t.tm_wday ≤ 7)
    (hmday : 1 ≤ t.tm_mday ∧ t.tm_mday ≤ 31) (hmon : 1 ≤ t.tm_mon ∧ t.tm_mon ≤ 12)
    (hyear : 0 ≤ t.tm_year ∧ t.tm_year ≤ 99) :
    (self.write t).1 = 0 ∧
    ((self.write t).2.read t0).1 = 0 ∧
    ((self.write t).2.read t0).2.1.tm_sec = t.tm_sec ∧
    ((self.write t).2.read t0).2.1.tm_min = t.tm_min ∧
    ((self.write t).2.read t0).2.1.tm_hour = t.tm_hour ∧
    ((self.write t).2.read t0).2.1.tm_mday = t.tm_mday ∧
    ((self.write t).2.read t0).2.1.tm_mon = t.tm_mon ∧
    ((self.write t).2.read t0).2.1.tm_year = t.tm_year ∧
    ((self.write t).2.read t0).2.1.tm_wday = t.tm_wday := by
  have hw := write_ok self t hbus
  have hs : (self.write t).2.busI2C.script = [] := by rw [hw]
  obtain ⟨hr1, hr2⟩ := read_ok (self.write t).2 t0 hs
  obtain ⟨a, ha, ea, ta⟩ := toByte_of_range t.tm_sec 59 hsec.1 hsec.2 (by decide)
  obtain ⟨b, hb, eb, tb⟩ := toByte_of_range t.tm_min 59 hmin.1 hmin.2 (by decide)
  obtain ⟨c, hc, ec, tc⟩ := toByte_of_range t.tm_hour 23 hhour.1 hhour.2 (by decide)
  obtain ⟨d, hd, ed, td⟩ := toByte_of_range t.tm_wday 7 (by omega) hwday.2 (by decide)
  obtain ⟨e, he, ee, te⟩ := toByte_of_range t.tm_mday 31 (by omega) hmday.2 (by decide)
  obtain ⟨f, hf, ef, tf⟩ := toByte_of_range t.tm_mon 12 (by omega) hmon.2 (by decide)
  obtain ⟨g, hg, eg, tg⟩ := toByte_of_range t.tm_year 99 hyear.1 hyear.2 (by decide)
  refine ⟨by rw [hw], hr1, ?_, ?_, ?_, ?_, ?_, ?_, ?_⟩ <;> rw [hr2, hw] <;> simp
  · rw [ta, ea, bcd_clear7 a ha]
  · rw [tb, eb, bcd_plain b (by omega)]
  · rw [tc, ec, bcd_clear6 c hc]
  · rw [te, ee, bcd_plain e (by omega)]
  · rw [tf, ef, bcd_clear7 f (by omega)]
  · rw [tg, eg, bcd_plain g hg]
  · rw [td, ed]

theorem time_round_trip_witness :
    sampleRTC.busI2C.script = [] ∧
    (sampleRTC.write sampleTime).1 = 0 ∧
    ((sampleRTC.write sampleTime).2.read zeroTime).1 = 0 ∧
    ((sampleRTC.write sampleTime).2.read zeroTime).2.1.tm_sec = 59 ∧
    ((sampleRTC.write sampleTime).2.read zeroTime).2.1.tm_hour = 23 ∧
    ((sampleRTC.write sampleTime).2.read zeroTime).2.1.tm_wday = 7 :=
  have h := time_round_trip sampleRTC sampleTime zeroTime rfl (by decide) (by decide)
    (by decide) (by decide) (by decide) (by decide) (by decide)
  ⟨rfl, h.1, h.2.1, h.2.2.1, h.2.2.2.2.1, h.2.2.2.2.2.2.2.2⟩

/-- C4: `write` clears OSF and nothing else in the status byte.  For every initial status
byte s and every time value, after `write` on a succeeding bus the status register (0x0F)
equals s with bit 7 cleared, that is s & 0x7F: bit 7 is 0 and every other bit is that
of s. -/
theorem write_clears_OSF_only (self : DS3232RTC) (t : tm) (s : Nat)
    (hbus : self.busI2C.script = []) (hs : self.busI2C.regs RTC_STATUS = s)
    (hbyte : s < 256) :
    (self.write t).2.busI2C.regs RTC_STATUS = s &&& 0x7F ∧
    ((self.write t).2.busI2C.regs RTC_STATUS).testBit OSF = false ∧
    ∀ i, i ≠ OSF → ((self.write t).2.busI2C.regs RTC_STATUS).testBit i = s.testBit i := by
  have hreg : (self.write t).2.busI2C.regs RTC_STATUS = andNot8 s (_BV OSF) := by
    rw [write_ok self t hbus]
    simp [RTC_STATUS, OSF, _BV] at hs ⊢
    rw [hs]
  refine ⟨?_, ?_, ?_⟩
  · rw [hreg]
    simp [andNot8, _BV, OSF, Nat.mod_eq_of_lt hbyte]
  · rw [hreg, andNot8_testBit, _BV_testBit]
    simp
  · intro i hi
    rw [hreg, andNot8_testBit, _BV_testBit]
    by_cases h8 : i < 8
    · have hne : ¬ (OSF = i) := fun h => hi h.symm
      simp [h8, hne]
    · simp [h8, byte_testBit_ge s i hbyte (by omega)]

theorem write_clears_OSF_only_witness :
    sampleRTC.busI2C.regs RTC_STATUS = 0x8B ∧
    (sampleRTC.write sampleTime).2.busI2C.regs RTC_STATUS = 0x8B &&& 0x7F ∧
    ((sampleRTC.write sampleTime).2.busI2C.regs RTC_STATUS).testBit OSF = false :=
  have h := write_clears_OSF_only sampleRTC sampleTime 0x8B rfl rfl (by decide)
  ⟨rfl, h.1, h.2.1⟩

/-! ## Alarm access and control register -/

theorem alarm_byte7 : ∀ n, n ≤ 59 →
    dec2bcd n &&& 0x7F = dec2bcd n ∧ (dec2bcd n).testBit 7 = false ∧
    ((dec2bcd n ||| 128) % 256) &&& 0x7F = dec2bcd n ∧
    ((dec2bcd n ||| 128) % 256).testBit 7 = true ∧
    dec2bcd n < 256 ∧ (dec2bcd n ||| 128) % 256 < 256 := by decide

theorem alarm_byte6 : ∀ n, n ≤ 31 →
    (dec2bcd n &&& 0x3F = dec2bcd n ∧ (dec2bcd n).testBit 6 = false ∧
      (dec2bcd n).testBit 7 = false) ∧
    (((dec2bcd n ||| 64) % 256) &&& 0x3F = dec2bcd n ∧
      ((dec2bcd n ||| 64) % 256).testBit 6 = true ∧
      ((dec2bcd n ||| 64) % 256).testBit 7 = false) ∧
    (((dec2bcd n ||| 128) % 256) &&& 0x3F = dec2bcd n ∧
      ((dec2bcd n ||| 128) % 256).testBit 6 = false ∧
      ((dec2bcd n ||| 128) % 256).testBit 7 = true) := by decide

/-- C5: alarm mask correctness.  For every alarm type and all fields in range (seconds
0-59, minutes 0-59, hours 0-23, day/date 1-31), on a succeeding bus `setAlarm` leaves in
each register of the selected alarm block a byte whose low bits are the BCD of the field
and whose mask bit (bit 7) is the documented one: A1M1..A1M4 are 1111 for
ALM1_EVERY_SECOND, 0111 for ALM1_MATCH_SECONDS, 0011 for ALM1_MATCH_MINUTES, 0001 for
ALM1_MATCH_HOURS, 0000 for ALM1_MATCH_DATE and ALM1_MATCH_DAY; A2M2..A2M4 are 111 for
ALM2_EVERY_MINUTE, 011 for ALM2_MATCH_MINUTES, 001 for ALM2_MATCH_HOURS, 000 for
ALM2_MATCH_DATE and ALM2_MATCH_DAY; and bit 6 (DY/DT) of the day/date byte is set exactly
for ALM1_MATCH_DAY and ALM2_MATCH_DAY. -/
theorem setAlarm_mask_bits (self : DS3232RTC) (alarmType : ALARM_TYPES_t)
    (seconds minutes hours daydate : Nat)
    (hbus : self.busI2C.script = [])
    (hsec : seconds ≤ 59) (hmin : minutes ≤ 59) (hhour : hours ≤ 23)
    (hday : 1 ≤ daydate ∧ daydate ≤ 31) :
    (isAlarm2 alarmType = false →
      ((self.setAlarm alarmType seconds minutes hours daydate).busI2C.regs ALM1_SECONDS &&& 0x7F
          = dec2bcd seconds ∧
       ((self.setAlarm alarmType seconds minutes hours daydate).busI2C.regs ALM1_SECONDS).testBit
          A1M1 = (documentedMask alarmType).m1) ∧
      ((self.setAlarm alarmType seconds minutes hours daydate).busI2C.regs ALM1_MINUTES &&& 0x7F
          = dec2bcd minutes ∧
       ((self.setAlarm alarmType seconds minutes hours daydate).busI2C.regs ALM1_MINUTES).testBit
          A1M2 = (documentedMask alarmType).m2) ∧
      ((self.setAlarm alarmType seconds minutes hours daydate).busI2C.regs ALM1_HOURS &&& 0x7F
          = dec2bcd hours ∧
       ((self.setAlarm alarmType seconds minutes hours daydate).busI2C.regs ALM1_HOURS).testBit
          A1M3 = (documentedMask alarmType).m3) ∧
      ((self.setAlarm alarmType seconds minutes hours daydate).busI2C.regs ALM1_DAYDATE &&& 0x3F
          = dec2bcd daydate ∧
       ((self.setAlarm alarmType seconds minutes hours daydate).busI2C.regs ALM1_DAYDATE).testBit
          A1M4 = (documentedMask alarmType).m4 ∧
       ((self.setAlarm alarmType seconds minutes hours daydate).busI2C.regs ALM1_DAYDATE).testBit
          DYDT = (documentedMask alarmType).dydt)) ∧
    (isAlarm2 alarmType = true →
      ((self.setAlarm alarmType seconds minutes hours daydate).busI2C.regs ALM2_MINUTES &&& 0x7F
          = dec2bcd minutes ∧
       ((self.setAlarm alarmType seconds minutes hours daydate).busI2C.regs ALM2_MINUTES).testBit
          A2M2 = (documentedMask alarmType).m2) ∧
      ((self.setAlarm alarmType seconds minutes hours daydate).busI2C.regs ALM2_HOURS &&& 0x7F
          = dec2bcd hours ∧
       ((self.setAlarm alarmType seconds minutes hours daydate).busI2C.regs ALM2_HOURS).testBit
          A2M3 = (documentedMask alarmType).m3) ∧
      ((self.setAlarm alarmType seconds minutes hours daydate).busI2C.regs ALM2_DAYDATE &&& 0x3F
          = dec2bcd daydate ∧
       ((self.setAlarm alarmType seconds minutes hours daydate).busI2C.regs ALM2_DAYDATE).testBit
          A2M4 = (documentedMask alarmType).m4 ∧
       ((self.setAlarm alarmType seconds minutes hours daydate).busI2C.regs ALM2_DAYDATE).testBit
          DYDT = (documentedMask alarmType).dydt)) := by
  obtain ⟨s1, s2, s3, s4, -, -⟩ := alarm_byte7 seconds hsec
  obtain ⟨m1, m2, m3, m4, -, -⟩ := alarm_byte7 minutes hmin
  obtain ⟨h1, h2, h3, h4, -, -⟩ := alarm_byte7 hours (by omega)
  obtain ⟨⟨d1, d2, d3⟩, ⟨d4, d5, d6⟩, ⟨d7, d8, d9⟩⟩ := alarm_byte6 daydate hday.2
  cases alarmType <;>
    simp +decide [setAlarm, writeRTC1_ok, hbus, ALARM_TYPES_t.val, _BV, ALM1_SECONDS,
      ALM1_MINUTES, ALM1_HOURS, ALM1_DAYDATE, ALM2_MINUTES, ALM2_HOURS, ALM2_DAYDATE,
      A1M1, A1M2, A1M3, A1M4, A2M2, A2M3, A2M4, DYDT, dec2bcd_mod, isAlarm2, documentedMask,
      s1, s2, s3, s4, m1, m2, m3, m4, h1, h2, h3, h4, d1, d2, d3, d4, d5, d6, d7, d8, d9]

theorem setAlarm_mask_bits_witness :
    sampleRTC.busI2C.script = [] ∧
    ((sampleRTC.setAlarm ALARM_TYPES_t.ALM2_MATCH_DAY 30 45 7 3).busI2C.regs ALM2_DAYDATE
        &&& 0x3F = dec2bcd 3 ∧
     ((sampleRTC.setAlarm ALARM_TYPES_t.ALM2_MATCH_DAY 30 45 7 3).busI2C.regs
        ALM2_DAYDATE).testBit A2M4 = false ∧
     ((sampleRTC.setAlarm ALARM_TYPES_t.ALM2_MATCH_DAY 30 45 7 3).busI2C.regs
        ALM2_DAYDATE).testBit DYDT = true) :=
  ⟨rfl, ((setAlarm_mask_bits sampleRTC ALARM_TYPES_t.ALM2_MATCH_DAY 30 45 7 3 rfl (by decide)
    (by decide) (by decide) (by decide)).2 rfl).2.2⟩

end DS3232RTC

theorem and_two_pow_ne_zero (x k : Nat) : x &&& 2 ^ k ≠ 0 ↔ x.testBit k = true := by
  constructor
  · intro h
    by_contra hb
    apply h
    apply Nat.eq_of_testBit_eq
    intro i
    rw [Nat.testBit_and, Nat.testBit_two_pow, Nat.zero_testBit]
    by_cases hki : k = i
    · subst hki
      simp [hb]
    · simp [hki]
  · intro hb h0
    have h1 : (x &&& 2 ^ k).testBit k = true := by
      rw [Nat.testBit_and, Nat.testBit_two_pow_self, hb]
      rfl
    rw [h0, Nat.zero_testBit] at h1
    exact Bool.noConfusion h1

theorem andNot8_and_self (x m : Nat) : andNot8 x m &&& m = 0 := by
  apply Nat.eq_of_testBit_eq
  intro i
  rw [Nat.testBit_and, andNot8_testBit, Nat.zero_testBit]
  cases m.testBit i <;> simp

namespace DS3232RTC

/-- The flag mask of `alarm` and `alarmInterrupt` for channels 1 and 2. -/
theorem channel_mask (c : Nat) (hc : c = 1 ∨ c = 2) :
    (_BV 0 <<< (c % 256 - 1)) % 256 = 2 ^ (c - 1) := by
  rcases hc with rfl | rfl <;> decide

/-- The effect of `alarm` on a succeeding bus. -/
theorem alarm_ok (self : DS3232RTC) (c : Nat) (hc : c = 1 ∨ c = 2)
    (hbus : self.busI2C.script = []) :
    self.alarm c =
      if (self.busI2C.regs 15 % 256).testBit (c - 1) = true then
        (true,
         { self with busI2C :=
            { self.busI2C with
                regs := fun a =>
                  if a = 15 then andNot8 (self.busI2C.regs 15) (2 ^ (c - 1))
                  else self.busI2C.regs a,
                ptr := 16, txAddress := 0x68, txBuffer := [], rxBuffer := [],
                log := self.busI2C.log ++
                  [BusEvent.transmission 0x68 [15] 0, BusEvent.request 0x68 1,
                   BusEvent.transmission 0x68
                     [15, andNot8 (self.busI2C.regs 15) (2 ^ (c - 1))] 0] } })
      else
        (false,
         { self with busI2C :=
            { self.busI2C with
                ptr := 16, txAddress := 0x68, txBuffer := [], rxBuffer := [],
                log := self.busI2C.log ++
                  [BusEvent.transmission 0x68 [15] 0, BusEvent.request 0x68 1] } }) := by
  have hm := channel_mask c hc
  simp only [A1F, alarm, RTC_STATUS]
  rw [hm, readRTC1_ok self 15 hbus]
  simp only [and_two_pow_ne_zero]
  split
  · rw [writeRTC1_ok _ _ _ (by simpa using hbus)]
    simp [andNot8_mod, andNot8_mod_left]
  · rfl

/-- A single-byte write changes no register other than the addressed one, whatever the
bus does. -/
theorem writeRTC1_regs_frame (self : DS3232RTC) (addr value a : Nat) (h : a ≠ addr % 256) :
    (writeRTC1 self addr value).2.busI2C.regs a = self.busI2C.regs a := by
  simp only [writeRTC1, writeRTC, writeLoop, TwoWire.beginTransmission, TwoWire.write,
    TwoWire.endTransmission]
  split <;> simp [TwoWire.storeBytes, h]

/-- C6: for every Alarm 2 type `setAlarm` discards the seconds argument (the resulting
state is the same for every seconds value), changes no register other than 0x0B, 0x0C and
0x0D, and on a succeeding bus performs exactly three writes, one to each of these
registers.  For every Alarm 1 type it changes no register other than 0x07-0x0A (so
0x0B-0x0D are unchanged) and on a succeeding bus performs exactly four writes, one to each
of 0x07-0x0A. -/
theorem setAlarm_frame (self : DS3232RTC) (alarmType : ALARM_TYPES_t)
    (seconds minutes hours daydate : Nat) :
    (isAlarm2 alarmType = true →
      (∀ seconds', self.setAlarm alarmType seconds' minutes hours daydate =
          self.setAlarm alarmType seconds minutes hours daydate) ∧
      (∀ a, a ≠ ALM2_MINUTES → a ≠ ALM2_HOURS → a ≠ ALM2_DAYDATE →
        (self.setAlarm alarmType seconds minutes hours daydate).busI2C.regs a =
          self.busI2C.regs a) ∧
      (self.busI2C.script = [] →
        (self.setAlarm alarmType seconds minutes hours daydate).busI2C.log =
          self.busI2C.log ++
            [BusEvent.transmission RTC_ADDR [ALM2_MINUTES,
               (self.setAlarm alarmType seconds minutes hours daydate).busI2C.regs ALM2_MINUTES] 0,
             BusEvent.transmission RTC_ADDR [ALM2_HOURS,
               (self.setAlarm alarmType seconds minutes hours daydate).busI2C.regs ALM2_HOURS] 0,
             BusEvent.transmission RTC_ADDR [ALM2_DAYDATE,
               (self.setAlarm alarmType seconds minutes hours daydate).busI2C.regs ALM2_DAYDATE]
               0])) ∧
    (isAlarm2 alarmType = false →
      (∀ a, a ≠ ALM1_SECONDS → a ≠ ALM1_MINUTES → a ≠ ALM1_HOURS → a ≠ ALM1_DAYDATE →
        (self.setAlarm alarmType seconds minutes hours daydate).busI2C.regs a =
          self.busI2C.regs a) ∧
      (self.busI2C.script = [] →
        (self.setAlarm alarmType seconds minutes hours daydate).busI2C.log =
          self.busI2C.log ++
            [BusEvent.transmission RTC_ADDR [ALM1_SECONDS,
               (self.setAlarm alarmType seconds minutes hours daydate).busI2C.regs ALM1_SECONDS] 0,
             BusEvent.transmission RTC_ADDR [ALM1_MINUTES,
               (self.setAlarm alarmType seconds minutes hours daydate).busI2C.regs ALM1_MINUTES] 0,
             BusEvent.transmission RTC_ADDR [ALM1_HOURS,
               (self.setAlarm alarmType seconds minutes hours daydate).busI2C.regs ALM1_HOURS] 0,
             BusEvent.transmission RTC_ADDR [ALM1_DAYDATE,
               (self.setAlarm alarmType seconds minutes hours daydate).busI2C.regs ALM1_DAYDATE]
               0])) := by
  refine ⟨fun h2 => ⟨?_, ?_, ?_⟩, fun h1 => ⟨?_, ?_⟩⟩
  · intro seconds'
    cases alarmType <;> simp +decide [isAlarm2] at h2 <;>
      simp +decide [setAlarm, ALARM_TYPES_t.val]
  · intro a ha hb hc
    cases alarmType <;> simp +decide [isAlarm2] at h2 <;>
      simp +decide [setAlarm, ALARM_TYPES_t.val, ALM2_MINUTES] <;>
      rw [writeRTC1_regs_frame _ _ _ _ (by simpa using hc),
        writeRTC1_regs_frame _ _ _ _ (by simpa using hb),
        writeRTC1_regs_frame _ _ _ _ (by simpa using ha)]
  · intro hbus
    cases alarmType <;> simp +decide [isAlarm2] at h2 <;>
      simp +decide [setAlarm, writeRTC1_ok, hbus, ALARM_TYPES_t.val, ALM2_MINUTES, ALM2_HOURS,
        ALM2_DAYDATE, RTC_ADDR]
  · intro a ha hb hc hd
    cases alarmType <;> simp +decide [isAlarm2] at h1 <;>
      simp +decide [setAlarm, ALARM_TYPES_t.val, ALM1_SECONDS] <;>
      rw [writeRTC1_regs_frame _ _ _ _ (by simpa using hd),
        writeRTC1_regs_frame _ _ _ _ (by simpa using hc),
        writeRTC1_regs_frame _ _ _ _ (by simpa using hb),
        writeRTC1_regs_frame _ _ _ _ (by simpa using ha)]
  · intro hbus
    cases alarmType <;> simp +decide [isAlarm2] at h1 <;>
      simp +decide [setAlarm, writeRTC1_ok, hbus, ALARM_TYPES_t.val, ALM1_SECONDS, ALM1_MINUTES,
        ALM1_HOURS, ALM1_DAYDATE, RTC_ADDR]

theorem setAlarm_frame_witness :
    isAlarm2 ALARM_TYPES_t.ALM2_MATCH_HOURS = true ∧
    sampleRTC.setAlarm ALARM_TYPES_t.ALM2_MATCH_HOURS 59 45 7 3 =
      sampleRTC.setAlarm ALARM_TYPES_t.ALM2_MATCH_HOURS 30 45 7 3 :=
  ⟨rfl, ((setAlarm_frame sampleRTC ALARM_TYPES_t.ALM2_MATCH_HOURS 30 45 7 3).1 rfl).1 59⟩

/-- C7: `alarm c` for channel c in 1, 2 and status byte s, on a succeeding bus, returns
true if and only if bit c-1 of s is set.  When it returns true the status register
afterwards is s with exactly bit c-1 cleared (every other bit unchanged) and no other
register changes; when it returns false no register is written: the register file is
unchanged, the status register is still s, and the only bus traffic is the address phase
and the one-byte read request. -/
theorem alarm_poll_and_clear (self : DS3232RTC) (c s : Nat) (hc : c = 1 ∨ c = 2)
    (hbus : self.busI2C.script = []) (hs : self.busI2C.regs RTC_STATUS = s)
    (hbyte : s < 256) :
    ((self.alarm c).1 = true ↔ s.testBit (c - 1) = true) ∧
    ((self.alarm c).1 = true →
      (∀ i, ((self.alarm c).2.busI2C.regs RTC_STATUS).testBit i =
          (s.testBit i && decide (i ≠ c - 1))) ∧
      (∀ a, a ≠ RTC_STATUS → (self.alarm c).2.busI2C.regs a = self.busI2C.regs a)) ∧
    ((self.alarm c).1 = false →
      (self.alarm c).2.busI2C.regs = self.busI2C.regs ∧
      (self.alarm c).2.busI2C.log =
        self.busI2C.log ++
          [BusEvent.transmission RTC_ADDR [RTC_STATUS] 0, BusEvent.request RTC_ADDR 1]) := by
  have hs15 : self.busI2C.regs 15 = s := hs
  rw [alarm_ok self c hc hbus, hs15, Nat.mod_eq_of_lt hbyte]
  by_cases hb : s.testBit (c - 1) = true
  · rw [if_pos hb]
    refine ⟨by simp [hb], fun _ => ⟨?_, ?_⟩, by simp⟩
    · intro i
      simp only [RTC_STATUS, if_true]
      rw [andNot8_testBit, Nat.testBit_two_pow]
      by_cases h8 : i < 8
      · by_cases hi : c - 1 = i
        · simp [h8, hi]
        · have hi2 : ¬ (i = c - 1) := fun h => hi h.symm
          simp [h8, hi, hi2]
      · simp [h8, byte_testBit_ge s i hbyte (by omega)]
    · intro a ha
      simp only [RTC_STATUS] at ha
      simp [ha]
  · rw [if_neg hb]
    refine ⟨by simp [hb], by simp, fun _ => ⟨rfl, rfl⟩⟩

theorem alarm_poll_and_clear_witness :
    sampleRTC.busI2C.regs RTC_STATUS = 0x8B ∧
    ((sampleRTC.alarm 2).1 = true ↔ (0x8B : Nat).testBit (2 - 1) = true) :=
  ⟨rfl, (alarm_poll_and_clear sampleRTC 2 0x8B (Or.inr rfl) rfl rfl (by decide)).1⟩

/-- C8: alarm flag poll/clear idempotence.  For channel c in 1, 2 and every device state
on a succeeding bus, the first call `alarm c` reports the flag bit c-1 of the status byte,
and a call `alarm c` immediately after it returns false and leaves the status byte (and
every other register) unchanged; a set flag is thus reported true exactly once. -/
theorem alarm_second_call (self : DS3232RTC) (c : Nat) (hc : c = 1 ∨ c = 2)
    (hbus : self.busI2C.script = []) :
    (self.alarm c).1 = (self.busI2C.regs RTC_STATUS % 256).testBit (c - 1) ∧
    ((self.alarm c).2.alarm c).1 = false ∧
    ((self.alarm c).2.alarm c).2.busI2C.regs RTC_STATUS =
      (self.alarm c).2.busI2C.regs RTC_STATUS ∧
    ((self.alarm c).2.alarm c).2.busI2C.regs = (self.alarm c).2.busI2C.regs := by
  have h1 := alarm_ok self c hc hbus
  refine ⟨?_, ?_⟩
  · rw [h1]
    by_cases hb : (self.busI2C.regs 15 % 256).testBit (c - 1) = true
    · rw [if_pos hb]; exact hb.symm
    · rw [if_neg hb]; simpa using hb
  have hbus1 : (self.alarm c).2.busI2C.script = [] := by
    rw [h1]; split <;> simpa using hbus
  have h2 := alarm_ok (self.alarm c).2 c hc hbus1
  have hflag : ((self.alarm c).2.busI2C.regs 15 % 256).testBit (c - 1) = false := by
    rw [h1]
    by_cases hb : (self.busI2C.regs 15 % 256).testBit (c - 1) = true
    · rw [if_pos hb]
      simp only [if_true]
      rw [andNot8_mod, andNot8_testBit, Nat.testBit_two_pow_self]
      simp
    · rw [if_neg hb]
      simpa using hb
  rw [h2, hflag]
  simp

theorem alarm_second_call_witness :
    (sampleRTC.alarm 1).1 = true ∧ ((sampleRTC.alarm 1).2.alarm 1).1 = false :=
  ⟨by decide, (alarm_second_call sampleRTC 1 (Or.inl rfl) rfl).2.1⟩

/-- The effect of `alarmInterrupt` on a succeeding bus. -/
theorem alarmInterrupt_ok (self : DS3232RTC) (c : Nat) (e : Bool) (hc : c = 1 ∨ c = 2)
    (hbus : self.busI2C.script = []) :
    (self.alarmInterrupt c e).busI2C.regs =
      fun a =>
        if a = 14 then
          (if e = true then (self.busI2C.regs 14 % 256 ||| 2 ^ (c - 1)) % 256
           else andNot8 (self.busI2C.regs 14) (2 ^ (c - 1)))
        else self.busI2C.regs a := by
  have hm := channel_mask c hc
  simp only [A1IE, alarmInterrupt, RTC_CONTROL]
  rw [hm, readRTC1_ok self 14 hbus, writeRTC1_ok _ _ _ (by simpa using hbus)]
  cases e <;> simp [andNot8_mod, andNot8_mod_left]

/-- C9: `alarmInterrupt c e` for channel c in 1, 2, every boolean e and every initial
control byte k, on a succeeding bus, leaves the control register (0x0E) with bit c-1 equal
to e and every other bit equal to the corresponding bit of k. -/
theorem alarmInterrupt_bits (self : DS3232RTC) (c : Nat) (e : Bool) (k : Nat)
    (hc : c = 1 ∨ c = 2) (hbus : self.busI2C.script = [])
    (hk : self.busI2C.regs RTC_CONTROL = k) (hbyte : k < 256) :
    ((self.alarmInterrupt c e).busI2C.regs RTC_CONTROL).testBit (c - 1) = e ∧
    ∀ i, i ≠ c - 1 →
      ((self.alarmInterrupt c e).busI2C.regs RTC_CONTROL).testBit i = k.testBit i := by
  have hk14 : self.busI2C.regs 14 = k := hk
  have hc8 : c - 1 < 8 := by rcases hc with rfl | rfl <;> decide
  rw [alarmInterrupt_ok self c e hc hbus, hk14, Nat.mod_eq_of_lt hbyte]
  simp only [RTC_CONTROL, if_true]
  constructor
  · cases e
    · simp [andNot8_testBit, Nat.testBit_two_pow_self]
    · simp [orMod_testBit, Nat.testBit_two_pow_self, hc8]
  · intro i hi
    have hne : ¬ (c - 1 = i) := fun h => hi h.symm
    by_cases h8 : i < 8
    · cases e
      · simp [andNot8_testBit, Nat.testBit_two_pow, hne, h8]
      · simp [orMod_testBit, Nat.testBit_two_pow, hne, h8]
    · have hz := byte_testBit_ge k i hbyte (by omega)
      cases e
      · simp [andNot8_testBit, h8, hz]
      · simp [orMod_testBit, h8, hz]

theorem alarmInterrupt_bits_witness :
    sampleRTC.busI2C.regs RTC_CONTROL = 0x5D ∧
    ((sampleRTC.alarmInterrupt 2 true).busI2C.regs RTC_CONTROL).testBit (2 - 1) = true :=
  ⟨rfl, (alarmInterrupt_bits sampleRTC 2 true 0x5D (Or.inr rfl) rfl rfl (by decide)).1⟩

/-- The effect of `squareWave` on a succeeding bus. -/
theorem squareWave_ok (self : DS3232RTC) (freq : SQWAVE_FREQS_t)
    (hbus : self.busI2C.script = []) :
    (self.squareWave freq).busI2C.regs =
      fun a =>
        if a = 14 then
          (if freq = SQWAVE_FREQS_t.SQWAVE_NONE then (self.busI2C.regs 14 % 256 ||| 4) % 256
           else ((self.busI2C.regs 14 % 256 &&& 0xE3) ||| (freq.val <<< 3)) % 256)
        else self.busI2C.regs a := by
  simp only [squareWave, RTC_CONTROL]
  rw [readRTC1_ok self 14 hbus, writeRTC1_ok _ _ _ (by simpa using hbus)]
  cases freq <;> simp +decide [SQWAVE_FREQS_t.val, _BV, INTCN, RS1]

set_option maxRecDepth 100000 in
theorem rate_select_code : ∀ k, k < 256 → ∀ f, f < 4 →
    ((((k &&& 0xE3) ||| (f <<< 3)) % 256) >>> 3) &&& 3 = f := by
  decide

theorem bits_E3 : ∀ i, i < 8 → i ≠ 2 → i ≠ 3 → i ≠ 4 → Nat.testBit 0xE3 i = true := by
  decide

theorem rate_bits_outside : ∀ f, f < 4 → ∀ i, i < 8 → i ≠ 3 → i ≠ 4 →
    (decide (i ≥ 3) && f.testBit (i - 3)) = false := by
  decide

theorem SQWAVE_val_lt (f : SQWAVE_FREQS_t) (hf : f ≠ SQWAVE_FREQS_t.SQWAVE_NONE) :
    f.val < 4 := by
  cases f <;> first | exact absurd rfl hf | decide

/-- C10: `squareWave` on a succeeding bus with initial control byte k.  For SQWAVE_NONE
the control register becomes k with INTCN (bit 2) set, every other bit (RS2 and RS1
included) unchanged.  For each concrete frequency f (codes 0 to 3) INTCN is cleared, bits
4..3 hold the two-bit code of f, and bits 7, 6, 5, 1, 0 are those of k. -/
theorem squareWave_bits (self : DS3232RTC) (k : Nat)
    (hbus : self.busI2C.script = []) (hk : self.busI2C.regs RTC_CONTROL = k)
    (hbyte : k < 256) :
    ((self.squareWave SQWAVE_FREQS_t.SQWAVE_NONE).busI2C.regs RTC_CONTROL = k ||| _BV INTCN ∧
     ((self.squareWave SQWAVE_FREQS_t.SQWAVE_NONE).busI2C.regs RTC_CONTROL).testBit INTCN
        = true ∧
     ∀ i, i ≠ INTCN →
       ((self.squareWave SQWAVE_FREQS_t.SQWAVE_NONE).busI2C.regs RTC_CONTROL).testBit i =
         k.testBit i) ∧
    ∀ f : SQWAVE_FREQS_t, f ≠ SQWAVE_FREQS_t.SQWAVE_NONE →
      ((self.squareWave f).busI2C.regs RTC_CONTROL).testBit INTCN = false ∧
      ((self.squareWave f).busI2C.regs RTC_CONTROL).testBit RS1 = f.val.testBit 0 ∧
      ((self.squareWave f).busI2C.regs RTC_CONTROL).testBit RS2 = f.val.testBit 1 ∧
      ((self.squareWave f).busI2C.regs RTC_CONTROL >>> RS1) &&& 3 = f.val ∧
      ∀ i, i ≠ INTCN → i ≠ RS1 → i ≠ RS2 →
        ((self.squareWave f).busI2C.regs RTC_CONTROL).testBit i = k.testBit i := by
  have hk14 : self.busI2C.regs 14 = k := hk
  have h4 : (4 : Nat) = 2 ^ 2 := by norm_num
  constructor
  · rw [squareWave_ok self _ hbus, hk14, Nat.mod_eq_of_lt hbyte]
    simp only [RTC_CONTROL, INTCN, if_true]
    have hlt : k ||| 4 < 256 := by
      have : k ||| 4 < 2 ^ 8 := Nat.or_lt_two_pow (by simpa using hbyte) (by norm_num)
      simpa using this
    rw [Nat.mod_eq_of_lt hlt]
    refine ⟨by simp [_BV], ?_, ?_⟩
    · rw [Nat.testBit_or, h4, Nat.testBit_two_pow_self]
      simp
    · intro i hi
      have hne : ¬ (2 = i) := fun h => hi h.symm
      rw [Nat.testBit_or, h4, Nat.testBit_two_pow]
      simp [hne]
  · intro f hf
    rw [squareWave_ok self _ hbus, hk14, Nat.mod_eq_of_lt hbyte]
    simp only [RTC_CONTROL, INTCN, RS1, RS2, if_true, if_neg hf]
    have hbits : ∀ i, (((k &&& 0xE3) ||| (f.val <<< 3)) % 256).testBit i =
        (decide (i < 8) && ((k.testBit i && (0xE3 : Nat).testBit i) ||
          (decide (i ≥ 3) && f.val.testBit (i - 3)))) := by
      intro i
      rw [mod256_testBit, Nat.testBit_or, Nat.testBit_and, Nat.testBit_shiftLeft]
    refine ⟨?_, ?_, ?_, ?_, ?_⟩
    · rw [hbits]; cases f <;> simp +decide [SQWAVE_FREQS_t.val]
    · rw [hbits]; cases f <;> simp +decide [SQWAVE_FREQS_t.val]
    · rw [hbits]; cases f <;> simp +decide [SQWAVE_FREQS_t.val]
    · exact rate_select_code k hbyte f.val (SQWAVE_val_lt f hf)
    · intro i h2 h3 h4'
      rw [hbits]
      by_cases h8 : i < 8
      · rw [bits_E3 i h8 h2 h3 h4', rate_bits_outside f.val (SQWAVE_val_lt f hf) i h8 h3 h4']
        simp [h8]
      · simp [h8, byte_testBit_ge k i hbyte (by omega)]

theorem squareWave_bits_witness :
    sampleRTC.busI2C.regs RTC_CONTROL = 0x5D ∧
    (sampleRTC.squareWave SQWAVE_FREQS_t.SQWAVE_NONE).busI2C.regs RTC_CONTROL
      = 0x5D ||| _BV INTCN ∧
    ((sampleRTC.squareWave SQWAVE_FREQS_t.SQWAVE_4096_HZ).busI2C.regs RTC_CONTROL >>> RS1) &&& 3
      = 2 :=
  have h := squareWave_bits sampleRTC 0x5D rfl rfl (by decide)
  ⟨rfl, h.1.1, (h.2 SQWAVE_FREQS_t.SQWAVE_4096_HZ (by decide)).2.2.2.1⟩

end DS3232RTC

/-! ## Register access -/

namespace TwoWire

theorem fetchBytes_length (regs : Nat → Nat) (n : Nat) :
    ∀ ptr, (fetchBytes regs ptr n).length = n := by
  induction n with
  | zero => intro ptr; rfl
  | succ k ih => intro ptr; simp [fetchBytes, ih]

theorem fetchBytes_getD (regs : Nat → Nat) (n : Nat) :
    ∀ ptr i, i < n → (fetchBytes regs ptr n).getD i 0 = regs (if i = 0 then ptr else (ptr + i) % 256) := by
  induction n with
  | zero => intro ptr i hi; omega
  | succ k ih =>
    intro ptr i hi
    cases i with
    | zero => simp [fetchBytes]
    | succ j =>
      simp only [fetchBytes, List.getD_cons_succ]
      rw [ih _ j (by omega)]
      congr 1
      by_cases hj : j = 0
      · simp [hj]
      · simp [hj]
        omega

/-- The address phase of a register access: `beginTransmission`, one address byte,
`endTransmission`. -/
theorem address_phase (w : TwoWire) (addr : Nat) :
    ((w.beginTransmission 0x68).write addr).endTransmission =
      if w.script.headD 0 ≠ 0 then
        (w.script.headD 0,
         { w with txAddress := 0x68, txBuffer := [], script := w.script.tail,
                  log := w.log ++ [BusEvent.transmission 0x68 [addr % 256] (w.script.headD 0)] })
      else
        (0,
         { w with ptr := addr % 256, txAddress := 0x68, txBuffer := [],
                  script := w.script.tail,
                  log := w.log ++ [BusEvent.transmission 0x68 [addr % 256] 0] }) := by
  simp only [beginTransmission, write, endTransmission]
  split
  · rfl
  · rename_i h
    have h0 : w.script.headD 0 = 0 := by
      by_contra hne
      exact h hne
    rw [h0]
    simp [storeBytes]

end TwoWire

namespace DS3232RTC

/-- The receive loop of `readRTC` when enough bytes are buffered. -/
theorem readLoop_spec (n : Nat) :
    ∀ (w : TwoWire) (values : Nat → Nat) (i : Nat), n ≤ w.rxBuffer.length →
      (readLoop w values i n).1 =
          (fun j => if i ≤ j ∧ j < i + n then w.rxBuffer.getD (j - i) 0 % 256 else values j) ∧
      (readLoop w values i n).2 = { w with rxBuffer := w.rxBuffer.drop n } := by
  induction n with
  | zero =>
    intro w values i _
    refine ⟨?_, by simp [readLoop]⟩
    funext j
    have hj : ¬ (i ≤ j ∧ j < i + 0) := by omega
    simp only [readLoop, if_neg hj]
  | succ k ih =>
    intro w values i hlen
    cases hrx : w.rxBuffer with
    | nil => rw [hrx] at hlen; simp at hlen
    | cons x xs =>
      have hread : w.read = ((x : Int), { w with rxBuffer := xs }) := by
        simp [TwoWire.read, hrx]
      have hk : k ≤ ({ w with rxBuffer := xs } : TwoWire).rxBuffer.length := by
        rw [hrx] at hlen
        simpa using hlen
      obtain ⟨ih1, ih2⟩ := ih { w with rxBuffer := xs }
        (fun j => if j = i then toByte (x : Int) else values j) (i + 1) hk
      simp only [readLoop, hread]
      refine ⟨?_, ?_⟩
      · rw [ih1]
        funext j
        by_cases h1 : i + 1 ≤ j ∧ j < i + 1 + k
        · have h2 : i ≤ j ∧ j < i + (k + 1) := by omega
          have h3 : j - i = (j - (i + 1)) + 1 := by omega
          simp only [if_pos h1, if_pos h2]
          rw [h3, List.getD_cons_succ]
        · by_cases h4 : j = i
          · subst h4
            have h2 : j ≤ j ∧ j < j + (k + 1) := by omega
            simp [h2, toByte_natCast]
          · have h2 : ¬ (i ≤ j ∧ j < i + (k + 1)) := by omega
            simp only [if_neg h1, if_neg h2, if_neg h4]
      · rw [ih2]
        simp

/-! ## Oscillator stop flag -/

/-- The effect of `oscStopped` on a succeeding bus. -/
theorem oscStopped_ok (self : DS3232RTC) (clearOSF : Bool)
    (hbus : self.busI2C.script = []) :
    self.oscStopped clearOSF =
      if (self.busI2C.regs 15 % 256).testBit 7 = true ∧ clearOSF = true then
        (true,
         { self with busI2C :=
            { self.busI2C with
                regs := fun a =>
                  if a = 15 then andNot8 (self.busI2C.regs 15) 128 else self.busI2C.regs a,
                ptr := 16, txAddress := 0x68, txBuffer := [], rxBuffer := [],
                log := self.busI2C.log ++
                  [BusEvent.transmission 0x68 [15] 0, BusEvent.request 0x68 1,
                   BusEvent.transmission 0x68 [15, andNot8 (self.busI2C.regs 15) 128] 0] } })
      else
        ((self.busI2C.regs 15 % 256).testBit 7,
         { self with busI2C :=
            { self.busI2C with
                ptr := 16, txAddress := 0x68, txBuffer := [], rxBuffer := [],
                log := self.busI2C.log ++
                  [BusEvent.transmission 0x68 [15] 0, BusEvent.request 0x68 1] } }) := by
  have h128 : _BV 7 = 2 ^ 7 := by decide
  simp only [OSF, oscStopped, RTC_STATUS]
  rw [h128, readRTC1_ok self 15 hbus]
  simp only [and_two_pow_ne_zero]
  by_cases hb : (self.busI2C.regs 15 % 256).testBit 7 = true
  · cases clearOSF
    · simp [hb]
    · rw [writeRTC1_ok _ _ _ (by simpa using hbus)]
      simp [hb, andNot8_mod, andNot8_mod_left]
  · simp [hb]

/-- C11: `oscStopped clear` for every status byte s and every boolean clear, on a
succeeding bus, returns true if and only if bit 7 (OSF) of s is set.  If OSF is set and
clear is true the status register afterwards is s & 0x7F (only OSF cleared, no other
register changed); in every other case no register is written: the register file is
unchanged, the status register is still s, and the only bus traffic is the address phase
and the one-byte read request. -/
theorem oscStopped_flag (self : DS3232RTC) (clearOSF : Bool) (s : Nat)
    (hbus : self.busI2C.script = []) (hs : self.busI2C.regs RTC_STATUS = s)
    (hbyte : s < 256) :
    ((self.oscStopped clearOSF).1 = true ↔ s.testBit OSF = true) ∧
    (s.testBit OSF = true ∧ clearOSF = true →
      (self.oscStopped clearOSF).2.busI2C.regs RTC_STATUS = s &&& 0x7F ∧
      (∀ i, i ≠ OSF →
        ((self.oscStopped clearOSF).2.busI2C.regs RTC_STATUS).testBit i = s.testBit i) ∧
      (∀ a, a ≠ RTC_STATUS →
        (self.oscStopped clearOSF).2.busI2C.regs a = self.busI2C.regs a)) ∧
    (¬ (s.testBit OSF = true ∧ clearOSF = true) →
      (self.oscStopped clearOSF).2.busI2C.regs = self.busI2C.regs ∧
      (self.oscStopped clearOSF).2.busI2C.regs RTC_STATUS = s ∧
      (self.oscStopped clearOSF).2.busI2C.log =
        self.busI2C.log ++
          [BusEvent.transmission RTC_ADDR [RTC_STATUS] 0, BusEvent.request RTC_ADDR 1]) := by
  have hs15 : self.busI2C.regs 15 = s := hs
  rw [oscStopped_ok self clearOSF hbus, hs15, Nat.mod_eq_of_lt hbyte]
  simp only [OSF, RTC_STATUS]
  by_cases hc : s.testBit 7 = true ∧ clearOSF = true
  · rw [if_pos hc]
    refine ⟨by simp [hc.1], fun _ => ⟨?_, ?_, ?_⟩, fun h => absurd hc h⟩
    · simp [andNot8, Nat.mod_eq_of_lt hbyte]
    · intro i hi
      simp only [if_true]
      rw [andNot8_testBit]
      have h128 : (128 : Nat) = 2 ^ 7 := by norm_num
      rw [h128, Nat.testBit_two_pow]
      have hne : ¬ (7 = i) := fun h => hi h.symm
      by_cases h8 : i < 8
      · simp [h8, hne]
      · simp [h8, byte_testBit_ge s i hbyte (by omega)]
    · intro a ha
      simp [ha]
  · rw [if_neg hc]
    refine ⟨by simp, fun h => absurd h hc, fun _ => ⟨rfl, hs15, rfl⟩⟩

theorem oscStopped_flag_witness :
    sampleRTC.busI2C.regs RTC_STATUS = 0x8B ∧
    ((sampleRTC.oscStopped true).1 = true ↔ (0x8B : Nat).testBit OSF = true) ∧
    (sampleRTC.oscStopped true).2.busI2C.regs RTC_STATUS = 0x8B &&& 0x7F :=
  have h := oscStopped_flag sampleRTC true 0x8B rfl rfl (by decide)
  ⟨rfl, h.1, (h.2.1 ⟨by decide, rfl⟩).1⟩

/-! ## Temperature -/

/-- The effect of `temperature` on a succeeding bus: two single-byte reads, LSB first. -/
theorem temperature_ok (self : DS3232RTC) (hbus : self.busI2C.script = []) :
    self.temperature =
      (Int.tdiv (int16_byte (self.busI2C.regs 0x12) (self.busI2C.regs 0x11)) 64,
       { self with busI2C :=
          { self.busI2C with
              ptr := 18, txAddress := 0x68, txBuffer := [], rxBuffer := [],
              log := self.busI2C.log ++
                [BusEvent.transmission 0x68 [18] 0, BusEvent.request 0x68 1,
                 BusEvent.transmission 0x68 [17] 0, BusEvent.request 0x68 1] } }) := by
  simp only [temperature, RTC_TEMP_LSB, RTC_TEMP_MSB]
  rw [readRTC1_ok self 18 hbus, readRTC1_ok _ 17 (by simpa using hbus)]
  simp [int16_byte]

/-- C12: temperature decode examples.  On a succeeding bus, with the temperature
registers holding MSB (0x11) = 0x19 and LSB (0x12) = 0x00, `temperature` returns 100
quarter-degrees (25.00 C); with MSB = 0xFF and LSB = 0xC0 it returns -1 quarter-degree
(-0.25 C); `int` is a 16-bit two's-complement value whose low byte is the LSB register. -/
theorem temperature_examples (self : DS3232RTC) (hbus : self.busI2C.script = []) :
    (self.busI2C.regs RTC_TEMP_MSB = 0x19 ∧ self.busI2C.regs RTC_TEMP_LSB = 0x00 →
      self.temperature.1 = 100) ∧
    (self.busI2C.regs RTC_TEMP_MSB = 0xFF ∧ self.busI2C.regs RTC_TEMP_LSB = 0xC0 →
      self.temperature.1 = -1) := by
  rw [temperature_ok self hbus]
  simp only [RTC_TEMP_MSB, RTC_TEMP_LSB]
  constructor
  · rintro ⟨h1, h2⟩
    rw [h1, h2]
    decide
  · rintro ⟨h1, h2⟩
    rw [h1, h2]
    decide

theorem temperature_examples_witness :
    (mkRTC (fun a => if a = 0x11 then 0x19 else 0) []).temperature.1 = 100 ∧
    (mkRTC (fun a => if a = 0x11 then 0xFF else if a = 0x12 then 0xC0 else 0) []).temperature.1
      = -1 :=
  ⟨(temperature_examples (mkRTC (fun a => if a = 0x11 then 0x19 else 0) []) rfl).1 ⟨rfl, rfl⟩,
   (temperature_examples
      (mkRTC (fun a => if a = 0x11 then 0xFF else if a = 0x12 then 0xC0 else 0) []) rfl).2
      ⟨rfl, rfl⟩⟩

/-- C13, counterexample: with MSB = 0xFF and LSB = 0xFF the 16-bit value is -1, whose
arithmetic right shift by 6 (the floor of -1/64) is -1, but `temperature` returns 0. -/
theorem temperature_not_floor :
    (mkRTC (fun a => if a = 0x11 then 0xFF else if a = 0x12 then 0xFF else 0) []).temperature.1
      = 0 ∧
    int16_byte 0xFF 0xFF = -1 ∧
    Int.fdiv (int16_byte 0xFF 0xFF) 64 = -1 ∧
    (mkRTC (fun a => if a = 0x11 then 0xFF else if a = 0x12 then 0xFF else 0) []).temperature.1
      ≠ Int.fdiv (int16_byte 0xFF 0xFF) 64 := by
  decide

theorem int16_byte_spec (lsb msb : Nat) (hl : lsb < 256) :
    -32768 ≤ int16_byte lsb msb ∧ int16_byte lsb msb < 32768 ∧
    (int16_byte lsb msb - ((256 * msb + lsb : Nat) : Int)) % 65536 = 0 := by
  unfold int16_byte
  split <;> omega

/-- C13, amended: for every pair of register bytes (MSB, LSB), on a succeeding bus,
`temperature` equals v / 64 in C integer division (rounding toward zero), where v is the
16-bit signed two's-complement value with high byte MSB and low byte LSB; this is the
arithmetic right shift by 6 (the floor of v / 64) whenever v is not negative or the low
six bits of LSB are zero. -/
theorem temperature_truncates (self : DS3232RTC) (msb lsb : Nat)
    (hbus : self.busI2C.script = [])
    (hmsb : self.busI2C.regs RTC_TEMP_MSB = msb) (hlsb : self.busI2C.regs RTC_TEMP_LSB = lsb)
    (hl : lsb < 256) :
    self.temperature.1 = Int.tdiv (int16_byte lsb msb) 64 ∧
    (-32768 ≤ int16_byte lsb msb ∧ int16_byte lsb msb < 32768 ∧
      (int16_byte lsb msb - ((256 * msb + lsb : Nat) : Int)) % 65536 = 0) ∧
    (0 ≤ int16_byte lsb msb ∨ lsb % 64 = 0 →
      self.temperature.1 = Int.fdiv (int16_byte lsb msb) 64) := by
  have h11 : self.busI2C.regs 0x11 = msb := hmsb
  have h12 : self.busI2C.regs 0x12 = lsb := hlsb
  have hv := int16_byte_spec lsb msb hl
  rw [temperature_ok self hbus, h11, h12]
  refine ⟨rfl, hv, ?_⟩
  intro h
  show Int.tdiv (int16_byte lsb msb) 64 = Int.fdiv (int16_byte lsb msb) 64
  rcases h with h | h
  · exact (Int.fdiv_eq_tdiv h (by decide)).symm
  · have hq : int16_byte lsb msb = 64 * (int16_byte lsb msb / 64) := by
      obtain ⟨-, -, h3⟩ := hv
      omega
    rw [Int.fdiv_eq_ediv _ (by decide)]
    exact Int.tdiv_eq_of_eq_mul_right (by decide) hq

theorem temperature_truncates_witness :
    (mkRTC (fun a => if a = 0x11 then 0xFF else if a = 0x12 then 0xC0 else 0) []).temperature.1
      = Int.tdiv (int16_byte 0xC0 0xFF) 64 ∧
    (mkRTC (fun a => if a = 0x11 then 0xFF else if a = 0x12 then 0xC0 else 0) []).temperature.1
      = Int.fdiv (int16_byte 0xC0 0xFF) 64 :=
  have h := temperature_truncates
    (mkRTC (fun a => if a = 0x11 then 0xFF else if a = 0x12 then 0xC0 else 0) []) 0xFF 0xC0
    rfl rfl rfl (by decide)
  ⟨h.1, h.2.2 (Or.inr (by decide))⟩

/-! ## Bus failures -/

/-- C14: bus failure propagation in `readRTC`.  For every address, count and output
buffer: if `endTransmission` of the address-write phase returns a nonzero status e, then
`readRTC` returns exactly e, issues no `requestFrom` or `read` (the log gains only the
failed address write and the receive buffer is untouched) and leaves the output buffer
unmodified; if it returns 0, `readRTC` returns 0 and `values[i]` is the i-th byte delivered
by the device, the content of register addr + i, for every i < nBytes. -/
theorem readRTC_failure_propagation (self : DS3232RTC) (addr : Nat) (values : Nat → Nat)
    (nBytes : Nat) (hn : nBytes < 256) :
    (self.busI2C.script.headD 0 ≠ 0 →
      (readRTC self addr values nBytes).1 = self.busI2C.script.headD 0 ∧
      (readRTC self addr values nBytes).2.1 = values ∧
      (readRTC self addr values nBytes).2.2.busI2C.log =
        self.busI2C.log ++
          [BusEvent.transmission RTC_ADDR [addr % 256] (self.busI2C.script.headD 0)] ∧
      (readRTC self addr values nBytes).2.2.busI2C.rxBuffer = self.busI2C.rxBuffer ∧
      (readRTC self addr values nBytes).2.2.busI2C.regs = self.busI2C.regs) ∧
    (self.busI2C.script.headD 0 = 0 →
      (readRTC self addr values nBytes).1 = 0 ∧
      (∀ i, i < nBytes →
        (readRTC self addr values nBytes).2.1 i =
          (TwoWire.fetchBytes self.busI2C.regs (addr % 256) nBytes).getD i 0 % 256 ∧
        (readRTC self addr values nBytes).2.1 i =
          self.busI2C.regs ((addr + i) % 256) % 256) ∧
      (∀ i, nBytes ≤ i → (readRTC self addr values nBytes).2.1 i = values i) ∧
      (readRTC self addr values nBytes).2.2.busI2C.log =
        self.busI2C.log ++
          [BusEvent.transmission RTC_ADDR [addr % 256] 0,
           BusEvent.request RTC_ADDR nBytes]) := by
  have hphase := TwoWire.address_phase self.busI2C addr
  generalize self.busI2C.script.headD 0 = e at hphase ⊢
  constructor
  · intro he
    simp only [readRTC, RTC_ADDR]
    rw [hphase, if_pos he]
    simp [he]
  · intro h0
    subst h0
    have hne : ¬ ((0 : Nat) ≠ 0) := fun h => h rfl
    simp only [readRTC, RTC_ADDR]
    rw [hphase, if_neg hne, Nat.mod_eq_of_lt hn]
    simp only [ne_eq, not_true_eq_false, if_false]
    obtain ⟨hv, hw⟩ := readLoop_spec nBytes
      (TwoWire.requestFrom
        { self.busI2C with ptr := addr % 256, txAddress := 0x68, txBuffer := [],
                           script := self.busI2C.script.tail,
                           log := self.busI2C.log ++ [BusEvent.transmission 0x68 [addr % 256] 0] }
        0x68 nBytes) values 0
      (by simp [TwoWire.requestFrom, TwoWire.fetchBytes_length])
    refine ⟨trivial, ?_, ?_, ?_⟩
    · intro i hi
      rw [hv]
      have hi2 : 0 ≤ i ∧ i < 0 + nBytes := by omega
      simp only [if_pos hi2, TwoWire.requestFrom, Nat.sub_zero, true_and]
      rw [TwoWire.fetchBytes_getD _ _ _ _ hi]
      by_cases hz : i = 0
      · simp [hz]
      · simp [hz]
    · intro i hi
      rw [hv]
      have hi2 : ¬ (0 ≤ i ∧ i < 0 + nBytes) := by omega
      simp only [if_neg hi2]
    · rw [hw]
      simp [TwoWire.requestFrom]

theorem readRTC_failure_propagation_witness :
    (readRTC (mkRTC (fun a => a) [2]) 5 (fun _ => 7) 3).1 = 2 ∧
    (readRTC (mkRTC (fun a => a) [2]) 5 (fun _ => 7) 3).2.1 = (fun _ => 7) ∧
    (readRTC (mkRTC (fun a => a) [0]) 5 (fun _ => 7) 3).1 = 0 ∧
    (readRTC (mkRTC (fun a => a) [0]) 5 (fun _ => 7) 3).2.1 2 = 7 :=
  have h1 := (readRTC_failure_propagation (mkRTC (fun a => a) [2]) 5 (fun _ => 7) 3
    (by decide)).1 (by decide)
  have h2 := (readRTC_failure_propagation (mkRTC (fun a => a) [0]) 5 (fun _ => 7) 3
    (by decide)).2 rfl
  ⟨h1.1, h1.2.1, h2.1, ((h2.2.1 2 (by decide)).2).trans (by decide)⟩

/-- C15: failure of `read`.  If the address-write phase of `read` fails with a nonzero
status e, `read` returns e, records e in `errCode`, requests no bytes (the log gains only
the failed address write) and leaves every field of the `tm` record as it was; and the
`time_t` wrapper `get` returns the sentinel 0. -/
theorem read_failure (self : DS3232RTC) (t : tm) (e : Nat)
    (he : self.busI2C.script.headD 0 = e) (hne : e ≠ 0) :
    (self.read t).1 = e ∧
    (self.read t).2.2.errCode = e ∧
    (self.read t).2.1 = t ∧
    (self.read t).2.2.busI2C.log =
      self.busI2C.log ++ [BusEvent.transmission RTC_ADDR [RTC_SECONDS] e] ∧
    (self.read t).2.2.busI2C.rxBuffer = self.busI2C.rxBuffer ∧
    ∀ (mk_gmtime : tm → Int) (t0 : tm), (self.get mk_gmtime t0).1 = 0 := by
  have hphase := TwoWire.address_phase self.busI2C RTC_SECONDS
  rw [he] at hphase
  have hread : ∀ t : tm, self.read t =
      (e, t, { self with
                 busI2C :=
                   { self.busI2C with
                       txAddress := 0x68, txBuffer := [], script := self.busI2C.script.tail,
                       log := self.busI2C.log ++ [BusEvent.transmission 0x68 [0] e] },
                 errCode := e }) := by
    intro t
    simp only [read, RTC_ADDR]
    rw [hphase, if_pos hne]
    simp [hne]
  refine ⟨by rw [hread], by rw [hread], by rw [hread], by rw [hread], by rw [hread], ?_⟩
  intro mk_gmtime t0
  simp only [get]
  rw [hread]
  simp [hne]

theorem read_failure_witness :
    ((mkRTC (fun a => a) [3]).read sampleTime).1 = 3 ∧
    ((mkRTC (fun a => a) [3]).read sampleTime).2.2.errCode = 3 ∧
    ((mkRTC (fun a => a) [3]).read sampleTime).2.1 = sampleTime :=
  have h := read_failure (mkRTC (fun a => a) [3]) sampleTime 3 rfl (by decide)
  ⟨h.1, h.2.1, h.2.2.1⟩

/-- Single-byte read on any bus: on a failed address write nothing is requested and the
result is the uninitialised local. -/
theorem readRTC1_any (self : DS3232RTC) (addr : Nat) :
    readRTC1 self addr =
      if self.busI2C.script.headD 0 ≠ 0 then
        (self.uninit % 256,
         { self with busI2C :=
            { self.busI2C with
                txAddress := 0x68, txBuffer := [], script := self.busI2C.script.tail,
                log := self.busI2C.log ++
                  [BusEvent.transmission 0x68 [addr % 256] (self.busI2C.script.headD 0)] } })
      else
        (self.busI2C.regs (addr % 256) % 256,
         { self with busI2C :=
            { self.busI2C with
                ptr := (addr % 256 + 1) % 256, txAddress := 0x68, txBuffer := [],
                rxBuffer := [], script := self.busI2C.script.tail,
                log := self.busI2C.log ++
                  [BusEvent.transmission 0x68 [addr % 256] 0, BusEvent.request 0x68 1] } }) := by
  simp only [readRTC1, readRTC, RTC_ADDR]
  rw [TwoWire.address_phase]
  generalize self.busI2C.script.headD 0 = e
  by_cases he : e = 0
  · subst he
    simp [readLoop, TwoWire.requestFrom, TwoWire.read, TwoWire.fetchBytes, toByte_natCast]
  · simp [he]

/-- Single-byte write on any bus: the register changes only when the transaction succeeds. -/
theorem writeRTC1_any (self : DS3232RTC) (addr value : Nat) :
    writeRTC1 self addr value =
      if self.busI2C.script.headD 0 ≠ 0 then
        (self.busI2C.script.headD 0,
         { self with busI2C :=
            { self.busI2C with
                txAddress := 0x68, txBuffer := [], script := self.busI2C.script.tail,
                log := self.busI2C.log ++
                  [BusEvent.transmission 0x68 [addr % 256, value % 256]
                    (self.busI2C.script.headD 0)] } })
      else
        (0,
         { self with busI2C :=
            { self.busI2C with
                regs := fun a => if a = addr % 256 then value % 256 else self.busI2C.regs a,
                ptr := (addr % 256 + 1) % 256, txAddress := 0x68, txBuffer := [],
                script := self.busI2C.script.tail,
                log := self.busI2C.log ++
                  [BusEvent.transmission 0x68 [addr % 256, value % 256] 0] } }) := by
  simp only [writeRTC1, writeRTC, writeLoop, TwoWire.beginTransmission, TwoWire.write,
    TwoWire.endTransmission, RTC_ADDR]
  generalize self.busI2C.script.headD 0 = e
  by_cases he : e = 0
  · subst he
    simp [TwoWire.storeBytes]
  · simp [he]

/-- The first transaction of `write` on any bus: the seven clock registers in one
transmission. -/
theorem write_time_phase (w : TwoWire) (b1 b2 b3 b4 b5 b6 b7 : Nat) :
    ((((((((((w.beginTransmission 0x68).write 0).write b1).write b2).write b3).write b4).write
      b5).write b6).write b7).endTransmission) =
      if w.script.headD 0 ≠ 0 then
        (w.script.headD 0,
         { w with txAddress := 0x68, txBuffer := [], script := w.script.tail,
                  log := w.log ++
                    [BusEvent.transmission 0x68
                      [0, b1 % 256, b2 % 256, b3 % 256, b4 % 256, b5 % 256, b6 % 256, b7 % 256]
                      (w.script.headD 0)] })
      else
        (0,
         { w with
             regs := fun a =>
               if a = 6 then b7 % 256 else if a = 5 then b6 % 256
               else if a = 4 then b5 % 256 else if a = 3 then b4 % 256
               else if a = 2 then b3 % 256 else if a = 1 then b2 % 256
               else if a = 0 then b1 % 256 else w.regs a,
             ptr := 7, txAddress := 0x68, txBuffer := [], script := w.script.tail,
             log := w.log ++
               [BusEvent.transmission 0x68
                 [0, b1 % 256, b2 % 256, b3 % 256, b4 % 256, b5 % 256, b6 % 256, b7 % 256] 0] }) := by
  simp only [TwoWire.beginTransmission, TwoWire.write, TwoWire.endTransmission]
  generalize w.script.headD 0 = e
  by_cases he : e = 0
  · subst he
    simp [TwoWire.storeBytes]
  · simp [he]

/-- The value returned by `write` is the status of the time write. -/
theorem write_returns_first_status (self : DS3232RTC) (t : tm) :
    (self.write t).1 = self.busI2C.script.headD 0 := by
  simp only [write, TwoWire.endTransmission]
  split
  · rfl
  · rename_i h
    have h0 : self.busI2C.script.headD 0 = 0 := by
      by_contra hne
      exact h hne
    rw [h0]
    split <;> rfl

/-- C16, counterexample: when the time write succeeds and the address write of the status
read reports status 2, `write` performs that failing transaction and still returns 0. -/
theorem write_hides_later_failure :
    ((mkRTC (fun a => if a = 15 then 0x8B else 0) [0, 2]).write sampleTime).1 = 0 ∧
    BusEvent.transmission RTC_ADDR [RTC_STATUS] 2 ∈
      ((mkRTC (fun a => if a = 15 then 0x8B else 0) [0, 2]).write sampleTime).2.busI2C.log := by
  decide

/-- C16, amended: for every time value and every bus behaviour, `write` returns the status
e reported by the transaction that writes the seven clock registers, whatever the later
transactions report; so a failure of the time write is surfaced as a nonzero status, while
the statuses of the status-register read and write-back are not returned. -/
theorem write_returns_time_write_status (self : DS3232RTC) (t : tm) (e : Nat)
    (rest : List Nat) (hbus : self.busI2C.script = e :: rest) :
    (self.write t).1 = e ∧ (e ≠ 0 → (self.write t).1 ≠ 0) := by
  have h := write_returns_first_status self t
  rw [hbus] at h
  have h2 : (self.write t).1 = e := h
  exact ⟨h2, fun hne => by rw [h2]; exact hne⟩

theorem write_returns_time_write_status_witness :
    ((mkRTC (fun a => a) [4, 0, 2]).write sampleTime).1 = 4 ∧
    ((mkRTC (fun a => a) [4, 0, 2]).write sampleTime).1 ≠ 0 :=
  have h := write_returns_time_write_status (mkRTC (fun a => a) [4, 0, 2]) sampleTime 4 [0, 2] rfl
  ⟨h.1, h.2 (by decide)⟩

/-- C17, counterexample: when the time write returns status 4, `write` still reads the
status register and writes it back: the status byte changes from 0x8B to 0x0B. -/
theorem write_clears_OSF_after_failed_write :
    ((mkRTC (fun a => if a = 15 then 0x8B else 0) [4]).write sampleTime).1 = 4 ∧
    (mkRTC (fun a => if a = 15 then 0x8B else 0) [4]).busI2C.regs RTC_STATUS = 0x8B ∧
    ((mkRTC (fun a => if a = 15 then 0x8B else 0) [4]).write sampleTime).2.busI2C.regs RTC_STATUS
      = 0x0B ∧
    BusEvent.transmission RTC_ADDR [RTC_STATUS, 0x0B] 0 ∈
      ((mkRTC (fun a => if a = 15 then 0x8B else 0) [4]).write sampleTime).2.busI2C.log := by
  decide

/-- C17, amended: for every time value and every bus behaviour, `write` attempts the
status-register read-modify-write after the time write whatever status e the time write
returned.  With r1 and r2 the statuses of the two transmissions after the time write,
`write` returns e and the bus log gains, in order, the time write (status e), the address
write of the status read (status r1), the one-byte read request only if r1 = 0, and the
status write-back (status r2).  If r1 = 0 the byte written back is s & 0x7F, and if also
r2 = 0 the status register ends as s & 0x7F (OSF cleared, the other bits unchanged). -/
theorem write_always_clears_OSF (self : DS3232RTC) (t : tm) (e r1 r2 s : Nat)
    (he : self.busI2C.script.headD 0 = e)
    (h1 : self.busI2C.script.tail.headD 0 = r1)
    (h2 : self.busI2C.script.tail.tail.headD 0 = r2)
    (hs : self.busI2C.regs RTC_STATUS = s) (hbyte : s < 256) :
    (self.write t).1 = e ∧
    (∃ v,
      (self.write t).2.busI2C.log =
        self.busI2C.log ++
          [BusEvent.transmission RTC_ADDR
             [RTC_SECONDS, dec2bcd (toByte t.tm_sec), dec2bcd (toByte t.tm_min),
              dec2bcd (toByte t.tm_hour), toByte t.tm_wday, dec2bcd (toByte t.tm_mday),
              dec2bcd (toByte t.tm_mon), dec2bcd (toByte t.tm_year)] e,
           BusEvent.transmission RTC_ADDR [RTC_STATUS] r1] ++
          (if r1 = 0 then [BusEvent.request RTC_ADDR 1] else []) ++
          [BusEvent.transmission RTC_ADDR [RTC_STATUS, v] r2] ∧
      (r1 = 0 → v = s &&& 0x7F)) ∧
    (r1 = 0 → r2 = 0 → (self.write t).2.busI2C.regs RTC_STATUS = s &&& 0x7F) := by
  have hs15 : self.busI2C.regs 15 = s := hs
  have hand : andNot8 s 128 = s &&& 0x7F := by
    simp [andNot8, Nat.mod_eq_of_lt hbyte]
  have h128 : _BV 7 = 128 := by decide
  have hlt : s &&& 0x7F < 256 := lt_of_le_of_lt Nat.and_le_left hbyte
  simp only [write, RTC_ADDR, RTC_SECONDS, RTC_STATUS, OSF, h128]
  rw [write_time_phase, he]
  by_cases e0 : e = 0 <;>
    simp only [e0, ne_eq, not_true_eq_false, not_false_eq_true, if_true, if_false] <;>
    rw [readRTC1_any] <;> simp only [] <;> rw [h1] <;>
    by_cases r10 : r1 = 0 <;>
    simp only [r10, ne_eq, not_true_eq_false, not_false_eq_true, if_true, if_false] <;>
    rw [writeRTC1_any] <;> simp only [] <;> rw [h2] <;>
    by_cases r20 : r2 = 0 <;>
    simp only [r20, ne_eq, not_true_eq_false, not_false_eq_true, if_true, if_false] <;>
    refine ⟨trivial, ⟨andNot8 (if r1 = 0 then s else self.uninit) 128, ?_, ?_⟩, ?_⟩ <;>
    simp [r10, r20, hs15, hand, hlt, Nat.mod_eq_of_lt hlt, toByte_mod, andNot8_mod,
      andNot8_mod_left, dec2bcd_mod]

theorem write_always_clears_OSF_witness :
    ((mkRTC (fun a => if a = 15 then 0x8B else 0) [4]).write sampleTime).1 = 4 ∧
    ((mkRTC (fun a => if a = 15 then 0x8B else 0) [4]).write sampleTime).2.busI2C.regs RTC_STATUS
      = 0x8B &&& 0x7F ∧
    ((mkRTC (fun a => if a = 15 then 0x8B else 0) [4, 2]).write sampleTime).1 = 4 :=
  have h := write_always_clears_OSF (mkRTC (fun a => if a = 15 then 0x8B else 0) [4])
    sampleTime 4 0 0 0x8B rfl rfl rfl rfl (by decide)
  have g := write_always_clears_OSF (mkRTC (fun a => if a = 15 then 0x8B else 0) [4, 2])
    sampleTime 4 2 0 0x8B rfl rfl rfl rfl (by decide)
  ⟨h.1, h.2.2 rfl rfl, g.1⟩

/-! ## Hour mode -/

theorem newEvents_append (self after : DS3232RTC) (evs : List BusEvent)
    (h : after.busI2C.log = self.busI2C.log ++ evs) : newEvents self after = evs := by
  simp [newEvents, h]

/-- The bus operations of `read` on a succeeding bus. -/
theorem read_log (self : DS3232RTC) (t0 : tm) (hbus : self.busI2C.script = []) :
    (self.read t0).2.2.busI2C.log =
      self.busI2C.log ++ [BusEvent.transmission 0x68 [0] 0, BusEvent.request 0x68 7] := by
  simp [read, TwoWire.beginTransmission, TwoWire.write, TwoWire.endTransmission,
    TwoWire.requestFrom, TwoWire.read, TwoWire.fetchBytes, TwoWire.storeBytes, hbus,
    RTC_ADDR, RTC_SECONDS]

/-- The bus operations of `setAlarm` on a succeeding bus: one single-register write per
alarm register. -/
theorem setAlarm_log (self : DS3232RTC) (alarmType : ALARM_TYPES_t)
    (seconds minutes hours daydate : Nat) (hbus : self.busI2C.script = []) :
    countTransactions
        (newEvents self (self.setAlarm alarmType seconds minutes hours daydate)) =
      if isAlarm2 alarmType = true then 3 else 4 := by
  cases alarmType <;>
    simp +decide [newEvents, countTransactions, setAlarm, writeRTC1_ok, hbus,
      ALARM_TYPES_t.val, isAlarm2, ALM1_SECONDS, ALM2_MINUTES]

/-- C19, counterexample: on a succeeding bus `write` issues three bus transactions, which
is neither 1 nor 2, and `setAlarm` with an Alarm 1 type issues four. -/
theorem write_takes_three_transactions :
    countTransactions (newEvents sampleRTC (sampleRTC.write sampleTime).2) = 3 ∧
    ¬ (countTransactions (newEvents sampleRTC (sampleRTC.write sampleTime).2) = 1 ∨
       countTransactions (newEvents sampleRTC (sampleRTC.write sampleTime).2) = 2) ∧
    countTransactions
      (newEvents sampleRTC (sampleRTC.setAlarm ALARM_TYPES_t.ALM1_MATCH_DATE 30 45 7 3)) = 4 := by
  decide

/-- C19, amended: on a succeeding bus, counting an address write immediately followed by
its read request as one transaction, `read` issues 1 bus transaction; `alarm` issues 2 when
it returns true and 1 otherwise; `oscStopped` issues 2 when the flag is set and clearing is
requested and 1 otherwise; `alarmInterrupt`, `squareWave` and `temperature` issue 2;
`write` issues 3; and both `setAlarm` overloads issue 4 for an Alarm 1 type and 3 for an
Alarm 2 type. -/
theorem transaction_counts (self : DS3232RTC) (hbus : self.busI2C.script = []) :
    (∀ t0, countTransactions (newEvents self (self.read t0).2.2) = 1) ∧
    (∀ t, countTransactions (newEvents self (self.write t).2) = 3) ∧
    (∀ ty s m h d, countTransactions (newEvents self (self.setAlarm ty s m h d)) =
      if isAlarm2 ty = true then 3 else 4) ∧
    (∀ ty m h d, countTransactions (newEvents self (self.setAlarm3 ty m h d)) =
      if isAlarm2 ty = true then 3 else 4) ∧
    (∀ c e, countTransactions (newEvents self (self.alarmInterrupt c e)) = 2) ∧
    (∀ c, countTransactions (newEvents self (self.alarm c).2) =
      if (self.alarm c).1 = true then 2 else 1) ∧
    (∀ f, countTransactions (newEvents self (self.squareWave f)) = 2) ∧
    (∀ clear, countTransactions (newEvents self (self.oscStopped clear).2) =
      if (self.oscStopped clear).1 = true ∧ clear = true then 2 else 1) ∧
    countTransactions (newEvents self self.temperature.2) = 2 := by
  refine ⟨?_, ?_, ?_, ?_, ?_, ?_, ?_, ?_, ?_⟩
  · intro t0
    rw [newEvents_append self _ _ (read_log self t0 hbus)]
    rfl
  · intro t
    rw [write_ok self t hbus]
    simp [newEvents, countTransactions]
  · intro ty s m h d
    exact setAlarm_log self ty s m h d hbus
  · intro ty m h d
    exact setAlarm_log self ty 0 m h d hbus
  · intro c e
    simp only [alarmInterrupt]
    rw [readRTC1_ok self _ hbus, writeRTC1_ok _ _ _ (by simpa using hbus)]
    simp [newEvents, countTransactions]
  · intro c
    simp only [alarm]
    rw [readRTC1_ok self _ hbus]
    split
    · rw [writeRTC1_ok _ _ _ (by simpa using hbus)]
      simp [newEvents, countTransactions]
    · simp [newEvents, countTransactions]
  · intro f
    simp only [squareWave]
    rw [readRTC1_ok self _ hbus, writeRTC1_ok _ _ _ (by simpa using hbus)]
    simp [newEvents, countTransactions]
  · intro clear
    rw [oscStopped_ok self clear hbus]
    by_cases hc : (self.busI2C.regs 15 % 256).testBit 7 = true ∧ clear = true
    · simp [hc, newEvents, countTransactions]
    · rw [if_neg hc]
      have hc2 : ¬ ((self.busI2C.regs 15 % 256).testBit 7 = true ∧ clear = true) := hc
      simp only [if_neg hc2]
      simp [newEvents, countTransactions]
  · rw [temperature_ok self hbus]
    simp [newEvents, countTransactions]

theorem transaction_counts_witness :
    countTransactions (newEvents sampleRTC (sampleRTC.read zeroTime).2.2) = 1 ∧
    countTransactions (newEvents sampleRTC (sampleRTC.write sampleTime).2) = 3 ∧
    countTransactions (newEvents sampleRTC sampleRTC.temperature.2) = 2 :=
  have h := transaction_counts sampleRTC rfl
  ⟨h.1 zeroTime, h.2.1 sampleTime, h.2.2.2.2.2.2.2.2⟩

/-! ## BCD codec beyond two digits -/

set_option maxRecDepth 100000 in
theorem bcd_plain159 : ∀ n, n ≤ 159 →
    bcd2dec (dec2bcd n) = n ∧ n + 6 * (n / 10) < 256 := by decide

/-- C20: the BCD round trip extends beyond two decimal digits.  For every n with
0 <= n <= 159, `bcd2dec (dec2bcd n) = n` in 8-bit unsigned arithmetic and `dec2bcd` does
not overflow a byte; n = 160 is the least input at which `dec2bcd` overflows a byte and
there the round trip fails; so a year value of 100-159 survives `write` followed by
`read` on a succeeding bus. -/
theorem extended_bcd_round_trip :
    (∀ n, n ≤ 159 → bcd2dec (dec2bcd n) = n ∧ n + 6 * (n / 10) < 256) ∧
    (256 ≤ 160 + 6 * (160 / 10) ∧ bcd2dec (dec2bcd 160) ≠ 160) ∧
    (∀ (self : DS3232RTC) (t t0 : tm), self.busI2C.script = [] →
      100 ≤ t.tm_year ∧ t.tm_year ≤ 159 →
      ((self.write t).2.read t0).1 = 0 ∧
      ((self.write t).2.read t0).2.1.tm_year = t.tm_year) := by
  refine ⟨bcd_plain159, by decide, ?_⟩
  intro self t t0 hbus hyear
  have hw := write_ok self t hbus
  have hs : (self.write t).2.busI2C.script = [] := by rw [hw]
  obtain ⟨hr1, hr2⟩ := read_ok (self.write t).2 t0 hs
  obtain ⟨g, hg, eg, tg⟩ := toByte_of_range t.tm_year 159 (by omega) hyear.2 (by decide)
  refine ⟨hr1, ?_⟩
  rw [hr2, hw]
  simp
  rw [tg, eg, (bcd_plain159 g hg).1]

theorem extended_bcd_round_trip_witness :
    bcd2dec (dec2bcd 159) = 159 ∧
    ((sampleRTC.write { sampleTime with tm_year := 126 }).2.read zeroTime).2.1.tm_year = 126 :=
  ⟨(extended_bcd_round_trip.1 159 (by decide)).1,
   (extended_bcd_round_trip.2.2 sampleRTC { sampleTime with tm_year := 126 } zeroTime rfl
      (by decide)).2⟩

end DS3232RTC
